import Mathlib
set_option maxRecDepth 40000

/-!
Shallow embedding of the slowql SQL static-analysis engine
(`src/slowql/core/detector.py`, `src/slowql/parser/universal.py`,
`src/slowql/rules/registery.py`) together with theorems settling the
frozen claims C1..C10 about the natural-language specification.

Python strings are modelled as `List Char` (wrapped in `String` at the
boundary), Python `re` patterns as an explicit abstract syntax tree
`Re` with a fuel-bounded backtracking matcher that mirrors CPython's
leftmost, earliest-alternative, greedy-quantifier search order,
including IGNORECASE folding, capture groups, backreferences and
negative lookahead, which are the constructs appearing in the
detector catalog.
-/

namespace Slowql

/-! ## Character helpers (Python semantics) -/

/-- Whitespace class used by Python `str.split` / `str.strip` and by the
regex class `\s` (ASCII part; the analysed texts are ASCII). -/
def pySpace (c : Char) : Bool :=
  c = ' ' || c = '\t' || c = '\n' || c = '\r' || c = '\x0b' || c = '\x0c'

/-- Python regex `\w` (ASCII part): letters, digits and underscore. -/
def wordChar (c : Char) : Bool :=
  c.isAlphanum || c = '_'

/-- Python regex `\d` (ASCII part). -/
def digitChar (c : Char) : Bool :=
  c.isDigit

/-- Case-insensitive character comparison, as under `re.IGNORECASE`
(ASCII folding). -/
def cEq (ci : Bool) (a b : Char) : Bool :=
  if ci then a.toLower = b.toLower else a = b

/-! ## Generic list-of-char helpers -/

/-- Check that `pat` is a prefix of `l` (exact characters). -/
def startsW : List Char → List Char → Bool
  | _, [] => true
  | [], _ :: _ => false
  | c :: r, p :: ps => c = p && startsW r ps

/-- Check that `pat` occurs as a contiguous substring of `l`. -/
def hasSub (pat : List Char) : List Char → Bool
  | [] => startsW [] pat
  | c :: r => startsW (c :: r) pat || hasSub pat r

/-- Uppercase a string, as Python `str.upper` (ASCII). -/
def pyUpper (l : List Char) : List Char :=
  l.map Char.toUpper

/-- Lowercase a string, as Python `str.lower` (ASCII). -/
def pyLower (l : List Char) : List Char :=
  l.map Char.toLower

/-- Numeric value of a digit string, as Python `int(...)` on a `\d+`
match (Python integers are unbounded, hence `Nat`). -/
def natOfDigits (l : List Char) : Nat :=
  l.foldl (fun n c => n * 10 + (c.toNat - '0'.toNat)) 0

/-- Split on a separator character keeping empty chunks, as Python
`str.split(',')`. -/
def splitOnChar (sep : Char) : List Char → List (List Char)
  | [] => [[]]
  | c :: r =>
    let rest := splitOnChar sep r
    if c = sep then [] :: rest
    else match rest with
      | [] => [[c]]
      | w :: ws => (c :: w) :: ws

/-! ## Normalization (`QueryDetector._normalize_query`)

The source performs, in order: `' '.join(query.split())`, then
`re.sub(r'--.*$', '', query, flags=re.MULTILINE)`, then
`re.sub(r'/\*.*?\*/', '', query, flags=re.DOTALL)`, then `.strip()`.
Each stage is embedded directly:
`collapseWs` is join-of-split, `cutLines` removes each leftmost `--`
up to its end of line (the `--.*$` substitution: `.` does not cross
`\n`, `$` matches before every `\n` and at the end), `rmBlock` removes
each leftmost `/*` paired with the first following `*/` (the lazy
`/\*.*?\*/` substitution, `re.sub` resuming after each removal), and
`pyStrip` trims whitespace at both ends. -/

/-- Words of a string: maximal runs of non-whitespace characters, as
Python `str.split()` with no argument (empty chunks discarded).
Built by a right fold: a non-space character either starts a new word
(when followed by whitespace or the end) or extends the word that its
successor begins. -/
def words : List Char → List (List Char)
  | [] => []
  | c :: r =>
    let ws := words r
    if pySpace c then ws
    else
      match r with
      | [] => [[c]]
      | c2 :: _ =>
        if pySpace c2 then [c] :: ws
        else
          match ws with
          | [] => [[c]]
          | w :: rest => (c :: w) :: rest

/-- Python `' '.join(ws)`: words separated by single spaces. -/
def joinSp : List (List Char) → List Char
  | [] => []
  | [w] => w
  | w :: ws => w ++ ' ' :: joinSp ws

/-- Stage 1 of `_normalize_query`: `' '.join(query.split())`. -/
def collapseWs (l : List Char) : List Char :=
  joinSp (words l)

/-- One-pass worker for the `--.*$` substitution: when `cut` is set we
are inside a removed comment and drop characters until the next
newline (which `$` does not consume); otherwise `--` switches into
removal and any other character is kept. -/
def cutLinesGo : Bool → List Char → List Char
  | _, [] => []
  | true, c :: r => if c = '\n' then c :: cutLinesGo false r else cutLinesGo true r
  | false, c :: r =>
    if c = '-' ∧ r.head? = some '-' then cutLinesGo true r
    else c :: cutLinesGo false r

/-- Stage 2 of `_normalize_query`: `re.sub(r'--.*$', '', q, re.M)` —
each `--` and everything up to (excluding) the next newline is
removed. -/
def cutLines (l : List Char) : List Char :=
  cutLinesGo false l

/-- One-pass worker for the `/\*.*?\*/` substitution: when `inC` is
set we are inside a comment being removed and drop until the closing
`*/` (whose existence the entry guard established); otherwise a `/*`
that has a later `*/` starts a removal and any other character is
kept. -/
def rmBlockGo : Bool → List Char → List Char
  | _, [] => []
  | true, c :: r =>
    match r with
    | [] => []
    | c2 :: r2 => if c = '*' ∧ c2 = '/' then rmBlockGo false r2 else rmBlockGo true (c2 :: r2)
  | false, c :: r =>
    match r with
    | [] => [c]
    | c2 :: r2 =>
      if c = '/' ∧ c2 = '*' ∧ hasSub ['*', '/'] r2 then rmBlockGo true r2
      else c :: rmBlockGo false (c2 :: r2)

/-- Stage 3 of `_normalize_query`: `re.sub(r'/\*.*?\*/', '', q, re.S)` —
each leftmost `/*` paired lazily with the first following `*/` is
removed; an unclosed `/*` is left in place (the pattern requires the
closing delimiter). -/
def rmBlock (l : List Char) : List Char :=
  rmBlockGo false l

/-- Python `str.strip()` (both ends, whitespace class). -/
def pyStrip (l : List Char) : List Char :=
  ((l.dropWhile pySpace).reverse.dropWhile pySpace).reverse

/-- `QueryDetector._normalize_query` on `List Char`. -/
def normalizeL (l : List Char) : List Char :=
  pyStrip (rmBlock (cutLines (collapseWs l)))

/-- `QueryDetector._normalize_query`. -/
def normalizeQuery (s : String) : String :=
  ⟨normalizeL s.data⟩

/-! ## Regex engine

Abstract syntax and a fuel-bounded backtracking matcher for the subset
of Python `re` used by the detector catalog: literals, `.`, character
classes (sets, ranges, `\d` `\w` `\s`, negation), greedy `*` `+` `?`
`{m,n}` `{m,}`, alternation, capturing groups, backreferences,
negative lookahead `(?!...)`, `\b`, and `$` (MULTILINE).  Exploration
order mirrors CPython: alternatives left to right, quantifiers
longest-first, search at the leftmost position that admits a match. -/

/-- One item inside a character class. -/
inductive CItem where
  | ch (c : Char)
  | range (a b : Char)
  | digit
  | word
  | space
deriving Repr, DecidableEq

/-- A single-character test. -/
inductive CharTest where
  | lit (c : Char)
  | any
  | digit
  | word
  | space
  | cls (neg : Bool) (items : List CItem)
deriving Repr, DecidableEq

/-- Does `c` satisfy class item `i` (exact, no case folding)? -/
def citemMatch (i : CItem) (c : Char) : Bool :=
  match i with
  | .ch x => c = x
  | .range a b => a ≤ c && c ≤ b
  | .digit => digitChar c
  | .word => wordChar c
  | .space => pySpace c

/-- Does `c` satisfy `t` under case-insensitivity flag `ci`?  Under
`re.IGNORECASE`, a class matches a character if the character or one
of its case variants is in the class. -/
def ctMatch (ci : Bool) (t : CharTest) (c : Char) : Bool :=
  match t with
  | .lit x => cEq ci c x
  | .any => c ≠ '\n'
  | .digit => digitChar c
  | .word => wordChar c
  | .space => pySpace c
  | .cls neg items =>
    let base := fun x => items.any (fun i => citemMatch i x)
    let hit := base c || (ci && (base c.toLower || base c.toUpper))
    if neg then !hit else hit

/-- Regex abstract syntax. -/
inductive Re where
  | eps
  | tst (t : CharTest)
  | seq (a b : Re)
  | alt (a b : Re)
  | star (r : Re)
  | grp (n : Nat) (r : Re)
  | bref (n : Nat)
  | nla (r : Re)
  | wb
  | eol
deriving Repr, DecidableEq

/-- Capture map: latest capture of each group shadows earlier ones. -/
def GroupMap := List (Nat × List Char)

/-- Latest capture of group `n`. -/
def lookupG (n : Nat) (g : GroupMap) : Option (List Char) :=
  match g with
  | [] => none
  | (m, v) :: rest => if m = n then some v else lookupG n rest

/-- Case-aware comparison of a captured text against the head of the
input (for backreferences). Returns the rest of the input on success. -/
def brefConsume (ci : Bool) : List Char → List Char → Option (List Char)
  | [], s => some s
  | _ :: _, [] => none
  | c :: cs, x :: xs => if cEq ci x c then brefConsume ci cs xs else none

/-- Word/non-word boundary (`\b`): exactly one neighbouring side is a
word character; absent sides count as non-word. -/
def atWb (prev : Option Char) (s : List Char) : Bool :=
  let pw := match prev with | none => false | some c => wordChar c
  let nw := match s with | [] => false | c :: _ => wordChar c
  pw != nw

/-- Fuel-bounded CPS backtracking matcher.  `prev` is the character
just before the current position (for `\b`), `s` the remaining input,
`g` the captures so far; `k` is invoked on every candidate way the
regex can match here, in CPython exploration order, and the first
success wins. -/
def reM (ci : Bool) : Nat → Re → Option Char → List Char → GroupMap →
    (Option Char → List Char → GroupMap → Option GroupMap) → Option GroupMap
  | 0, _, _, _, _, _ => none
  | fuel + 1, r, prev, s, g, k =>
    match r with
    | .eps => k prev s g
    | .tst t =>
      match s with
      | [] => none
      | c :: rest => if ctMatch ci t c then k (some c) rest g else none
    | .seq a b => reM ci fuel a prev s g (fun p' s' g' => reM ci fuel b p' s' g' k)
    | .alt a b =>
      match reM ci fuel a prev s g k with
      | some res => some res
      | none => reM ci fuel b prev s g k
    | .star r =>
      match reM ci fuel r prev s g (fun p' s' g' =>
          if s'.length < s.length then reM ci fuel (.star r) p' s' g' k
          else k p' s' g') with
      | some res => some res
      | none => k prev s g
    | .grp n r =>
      reM ci fuel r prev s g (fun p' s' g' =>
        k p' s' ((n, s.take (s.length - s'.length)) :: g'))
    | .bref n =>
      match lookupG n g with
      | none => none
      | some cap =>
        match brefConsume ci cap s with
        | none => none
        | some s' =>
          let prev' := match cap.reverse with | [] => prev | c :: _ => some c
          k prev' s' g
    | .nla r =>
      match reM ci fuel r prev s g (fun _ _ g' => some g') with
      | some _ => none
      | none => k prev s g
    | .wb => if atWb prev s then k prev s g else none
    | .eol =>
      match s with
      | [] => k prev s g
      | c :: _ => if c = '\n' then k prev s g else none

/-- Fuel that always suffices for the patterns of the catalog: the
backtracking depth is bounded by input length times nesting depth. -/
def reFuel (s : List Char) : Nat :=
  16 * s.length + 512

/-- Try to match `r` exactly at the current position. -/
def reTry (ci : Bool) (r : Re) (prev : Option Char) (s : List Char) : Option GroupMap :=
  reM ci (reFuel s) r prev s [] (fun _ _ g => some g)

/-- Leftmost search, as `pattern.search`: try each start position left
to right. -/
def reSearchAux (ci : Bool) (r : Re) : Option Char → List Char → Option GroupMap
  | prev, s =>
    match reTry ci r prev s with
    | some g => some g
    | none =>
      match s with
      | [] => none
      | c :: rest => reSearchAux ci r (some c) rest

/-- `pattern.search(s)`, returning the captures of the first match. -/
def reSearch (ci : Bool) (r : Re) (s : String) : Option GroupMap :=
  reSearchAux ci r none s.data

/-- Truthiness of `pattern.search(s)`. -/
def reTest (ci : Bool) (r : Re) (s : String) : Bool :=
  (reSearch ci r s).isSome

/-- Truthiness of `pattern.match(s)` (anchored at the start). -/
def reMatchStart (ci : Bool) (r : Re) (s : String) : Bool :=
  (reTry ci r none s.data).isSome

/-- `match.group(1)` of the first match, if the search succeeds and
group 1 was set. -/
def reGroup1 (ci : Bool) (r : Re) (s : String) : Option (List Char) :=
  (reSearch ci r s).bind (lookupG 1)

/-! ### Regex construction helpers -/

/-- Literal string: characters in sequence. -/
def rstr (s : String) : Re :=
  (s.data.map (fun c => Re.tst (.lit c))).foldr .seq .eps

/-- Concatenation of a list of regexes. -/
def rcat (l : List Re) : Re :=
  l.foldr .seq .eps

/-- Alternation `a|b|...` (left-to-right preference). -/
def ralts : List Re → Re
  | [] => .eps
  | [r] => r
  | r :: rest => .alt r (ralts rest)

/-- Greedy `r?`. -/
def ropt (r : Re) : Re := .alt r .eps

/-- Greedy `r+`. -/
def rplus (r : Re) : Re := .seq r (.star r)

/-- `r{n}`: exactly `n` copies. -/
def rrep : Nat → Re → Re
  | 0, _ => .eps
  | n + 1, r => .seq r (rrep n r)

/-- Greedy `r{n,}`. -/
def ratLeast (n : Nat) (r : Re) : Re := .seq (rrep n r) (.star r)

/-- Greedy chain of optional copies (at most `n`), longest first. -/
def roptChain : Nat → Re → Re
  | 0, _ => .eps
  | n + 1, r => ropt (.seq r (roptChain n r))

/-- Greedy `r{m,n}`. -/
def rbetween (m n : Nat) (r : Re) : Re := .seq (rrep m r) (roptChain (n - m) r)

/-- Shorthands for `\s*`, `\s+`, `\w+`, `\w*`, `\d+`, `.*`. -/
def sp0 : Re := .star (.tst .space)

def sp1 : Re := rplus (.tst .space)

def wd1 : Re := rplus (.tst .word)

def wd0 : Re := .star (.tst .word)

def dg1 : Re := rplus (.tst .digit)

def dot0 : Re := .star (.tst .any)

/-- Character test for a single literal. -/
def tch (c : Char) : Re := .tst (.lit c)

/-! ## Detector patterns (`QueryDetector._compile_patterns`)

Each definition transcribes one compiled pattern from the source, in
the source's regex syntax (noted in each doc comment).  All of these
are compiled with `re.IGNORECASE` except `hardcoded_ip`,
`email_in_query`, `multiple_spaces` (no flags) and
`trailing_whitespace` (`re.MULTILINE` only); the flag is passed at the
call site in the detector entries below. -/

/-- Class `['"]` (a quote character). -/
def qch : Re := .tst (.cls false [.ch '\'', .ch '"'])

/-- Regex `\d{2}`. -/
def d2 : Re := rrep 2 (.tst .digit)

/-- Regex `\d{4}`. -/
def d4 : Re := rrep 4 (.tst .digit)

/-- Pattern `SELECT\s+\*`. -/
def pat_select_star : Re := rcat [rstr "SELECT", sp1, tch '*']

/-- Pattern `(UPDATE|DELETE)(\s+FROM)?\s+\w+(\s+SET)?`. -/
def pat_missing_where : Re :=
  rcat [.grp 1 (ralts [rstr "UPDATE", rstr "DELETE"]),
    ropt (.grp 2 (rcat [sp1, rstr "FROM"])), sp1, wd1,
    ropt (.grp 3 (rcat [sp1, rstr "SET"]))]

/-- Pattern `WHERE\s+(YEAR|MONTH|DAY|UPPER|LOWER)\s*\([^)]+\)\s*=`. -/
def pat_non_sargable : Re :=
  rcat [rstr "WHERE", sp1,
    .grp 1 (ralts [rstr "YEAR", rstr "MONTH", rstr "DAY", rstr "UPPER", rstr "LOWER"]),
    sp0, tch '(', rplus (.tst (.cls true [.ch ')'])), tch ')', sp0, tch '=']

/-- Pattern `WHERE\s+\w*(name|email|code|status)\w*\s*=\s*\d+`. -/
def pat_implicit_conversion : Re :=
  rcat [rstr "WHERE", sp1, wd0,
    .grp 1 (ralts [rstr "name", rstr "email", rstr "code", rstr "status"]),
    wd0, sp0, tch '=', sp0, dg1]

/-- Pattern `FROM\s+\w+\s*,\s*\w+`. -/
def pat_cartesian_product : Re :=
  rcat [rstr "FROM", sp1, wd1, sp0, tch ',', sp0, wd1]

/-- Pattern `WHERE|JOIN` (inline secondary search of
`_detect_cartesian_product`). -/
def pat_where_or_join : Re := ralts [rstr "WHERE", rstr "JOIN"]

/-- Pattern `SELECT.*FROM.*WHERE\s+\w+_id\s*=\s*\?`. -/
def pat_n_plus_1 : Re :=
  rcat [rstr "SELECT", dot0, rstr "FROM", dot0, rstr "WHERE", sp1, wd1,
    rstr "_id", sp0, tch '=', sp0, tch '?']

/-- Pattern `SELECT.*\(SELECT.*FROM.*WHERE.*=.*\w+\.\w+`. -/
def pat_correlated_subquery : Re :=
  rcat [rstr "SELECT", dot0, tch '(', rstr "SELECT", dot0, rstr "FROM", dot0,
    rstr "WHERE", dot0, tch '=', dot0, wd1, tch '.', wd1]

/-- Pattern `WHERE.*\w+\s*=.*\sOR\s+\w+\s*=`. -/
def pat_or_prevents_index : Re :=
  rcat [rstr "WHERE", dot0, wd1, sp0, tch '=', dot0, .tst .space,
    rstr "OR", sp1, wd1, sp0, tch '=']

/-- Pattern `OFFSET\s+(\d+)`. -/
def pat_offset_pagination : Re := rcat [rstr "OFFSET", sp1, .grp 1 dg1]

/-- Pattern `SELECT\s+DISTINCT\s+\w*id\w*`. -/
def pat_distinct_unnecessary : Re :=
  rcat [rstr "SELECT", sp1, rstr "DISTINCT", sp1, wd0, rstr "id", wd0]

/-- Pattern `IN\s*\(([^)]+)\)`. -/
def pat_huge_in_list : Re :=
  rcat [rstr "IN", sp0, tch '(', .grp 1 (rplus (.tst (.cls true [.ch ')']))), tch ')']

/-- Pattern `LIKE\s+['"]%`. -/
def pat_leading_wildcard : Re := rcat [rstr "LIKE", sp1, qch, tch '%']

/-- Pattern `COUNT\s*\(\s*\*\s*\)\s*>\s*0`. -/
def pat_count_star_exists : Re :=
  rcat [rstr "COUNT", sp0, tch '(', sp0, tch '*', sp0, tch ')', sp0, tch '>', sp0, tch '0']

/-- Pattern `NOT\s+IN\s*\(\s*SELECT`. -/
def pat_not_in_nullable : Re :=
  rcat [rstr "NOT", sp1, rstr "IN", sp0, tch '(', sp0, rstr "SELECT"]

/-- Pattern `EXISTS\s*\(\s*SELECT\s+(?!.*LIMIT)`. -/
def pat_no_limit_exists : Re :=
  rcat [rstr "EXISTS", sp0, tch '(', sp0, rstr "SELECT", sp1,
    .nla (rcat [dot0, rstr "LIMIT"])]

/-- Pattern `(price|amount|total|cost|value)\s*=\s*\d+\.\d+`. -/
def pat_floating_point_equals : Re :=
  rcat [.grp 1 (ralts [rstr "price", rstr "amount", rstr "total", rstr "cost", rstr "value"]),
    sp0, tch '=', sp0, dg1, tch '.', dg1]

/-- Pattern `=\s*NULL|!=\s*NULL`. -/
def pat_null_comparison : Re :=
  ralts [rcat [tch '=', sp0, rstr "NULL"], rcat [rstr "!=", sp0, rstr "NULL"]]

/-- Pattern `WHERE.*(LOWER|UPPER|TRIM|SUBSTRING|DATE|YEAR|MONTH)\s*\(\s*(id|email|user_id|created_at)`. -/
def pat_function_on_column : Re :=
  rcat [rstr "WHERE", dot0,
    .grp 1 (ralts [rstr "LOWER", rstr "UPPER", rstr "TRIM", rstr "SUBSTRING",
      rstr "DATE", rstr "YEAR", rstr "MONTH"]),
    sp0, tch '(', sp0,
    .grp 2 (ralts [rstr "id", rstr "email", rstr "user_id", rstr "created_at"])]

/-- Pattern `HAVING(?!\s+COUNT|\s+SUM|\s+AVG|\s+MAX|\s+MIN)`. -/
def pat_having_no_aggregates : Re :=
  rcat [rstr "HAVING",
    .nla (ralts [rcat [sp1, rstr "COUNT"], rcat [sp1, rstr "SUM"],
      rcat [sp1, rstr "AVG"], rcat [sp1, rstr "MAX"], rcat [sp1, rstr "MIN"]])]

/-- Pattern `UNION(?!\s+ALL)`. -/
def pat_union_missing_all : Re := rcat [rstr "UNION", .nla (rcat [sp1, rstr "ALL"])]

/-- Pattern `SELECT.*,.*\(SELECT`. -/
def pat_subquery_select_list : Re :=
  rcat [rstr "SELECT", dot0, tch ',', dot0, tch '(', rstr "SELECT"]

/-- Pattern `BETWEEN.*\d{4}-\d{2}-\d{2}.*AND.*\d{4}-\d{2}-\d{2}`. -/
def pat_between_timestamps : Re :=
  rcat [rstr "BETWEEN", dot0, d4, tch '-', d2, tch '-', d2, dot0,
    rstr "AND", dot0, d4, tch '-', d2, tch '-', d2]

/-- Pattern `WHERE.*CASE\s+WHEN`. -/
def pat_case_in_where : Re := rcat [rstr "WHERE", dot0, rstr "CASE", sp1, rstr "WHEN"]

/-- Pattern `OFFSET\s+\d+(?!.*ORDER\s+BY)`. -/
def pat_offset_no_order : Re :=
  rcat [rstr "OFFSET", sp1, dg1, .nla (rcat [dot0, rstr "ORDER", sp1, rstr "BY"])]

/-- Pattern `LIKE\s+["'][^%_]+["']`. -/
def pat_like_no_wildcard : Re :=
  rcat [rstr "LIKE", sp1, qch, rplus (.tst (.cls true [.ch '%', .ch '_'])), qch]

/-- Pattern `ORDER\s+BY\s+\d+`. -/
def pat_order_by_ordinal : Re := rcat [rstr "ORDER", sp1, rstr "BY", sp1, dg1]

/-- Pattern `ORDER\s+BY\s+(?!.*\b(id|pk|primary_key)\b)`. -/
def pat_ambiguous_order_by : Re :=
  rcat [rstr "ORDER", sp1, rstr "BY", sp1,
    .nla (rcat [dot0, .wb, .grp 1 (ralts [rstr "id", rstr "pk", rstr "primary_key"]), .wb])]

/-- Pattern `CASE\s+WHEN.*WHEN.*END(?!\s+ELSE)`. -/
def pat_missing_case_else : Re :=
  rcat [rstr "CASE", sp1, rstr "WHEN", dot0, rstr "WHEN", dot0, rstr "END",
    .nla (rcat [sp1, rstr "ELSE"])]

/-- Pattern `(\w+)\s*=\s*([^O]+)\s+OR\s+\1\s*=\s*\2`. -/
def pat_redundant_or : Re :=
  rcat [.grp 1 wd1, sp0, tch '=', sp0, .grp 2 (rplus (.tst (.cls true [.ch 'O']))),
    sp1, rstr "OR", sp1, .bref 1, sp0, tch '=', sp0, .bref 2]

/-- Pattern `WHERE\s+(\w+)\s*=\s*(\d+)\s+AND\s+\1\s*=\s*(?!\2)\d+`. -/
def pat_contradictory_where : Re :=
  rcat [rstr "WHERE", sp1, .grp 1 wd1, sp0, tch '=', sp0, .grp 2 dg1, sp1,
    rstr "AND", sp1, .bref 1, sp0, tch '=', sp0, .nla (.bref 2), dg1]

/-- Pattern `WHERE\s+1\s*=\s*1|WHERE\s+TRUE`. -/
def pat_always_true : Re :=
  ralts [rcat [rstr "WHERE", sp1, tch '1', sp0, tch '=', sp0, tch '1'],
    rcat [rstr "WHERE", sp1, rstr "TRUE"]]

/-- Pattern `WHERE\s+1\s*=\s*0|WHERE\s+FALSE`. -/
def pat_always_false : Re :=
  ralts [rcat [rstr "WHERE", sp1, tch '1', sp0, tch '=', sp0, tch '0'],
    rcat [rstr "WHERE", sp1, rstr "FALSE"]]

/-- Pattern `WHERE\s+(\w+)\s+IS\s+NOT\s+NULL\s+OR\s+\1\s+IS\s+NULL`. -/
def pat_tautology : Re :=
  rcat [rstr "WHERE", sp1, .grp 1 wd1, sp1, rstr "IS", sp1, rstr "NOT", sp1,
    rstr "NULL", sp1, rstr "OR", sp1, .bref 1, sp1, rstr "IS", sp1, rstr "NULL"]

/-- Pattern `WHERE\s+(\w+)\s+IS\s+NOT\s+NULL\s+AND\s+\1\s+IS\s+NULL`. -/
def pat_contradiction : Re :=
  rcat [rstr "WHERE", sp1, .grp 1 wd1, sp1, rstr "IS", sp1, rstr "NOT", sp1,
    rstr "NULL", sp1, rstr "AND", sp1, .bref 1, sp1, rstr "IS", sp1, rstr "NULL"]

/-- Pattern `JOIN\s+(\w+)\s+.*JOIN\s+\1\s+`. -/
def pat_duplicate_join : Re :=
  rcat [rstr "JOIN", sp1, .grp 1 wd1, sp1, dot0, rstr "JOIN", sp1, .bref 1, sp1]

/-- Pattern `SELECT\s+DISTINCT.*GROUP\s+BY`. -/
def pat_redundant_distinct : Re :=
  rcat [rstr "SELECT", sp1, rstr "DISTINCT", dot0, rstr "GROUP", sp1, rstr "BY"]

/-- Pattern `(\w+)\s+AS\s+\1\b`. -/
def pat_redundant_alias : Re :=
  rcat [.grp 1 wd1, sp1, rstr "AS", sp1, .bref 1, .wb]

/-- Pattern `\(\s*SELECT\s+[\d'"]+\s*\)`. -/
def pat_trivial_subquery : Re :=
  rcat [tch '(', sp0, rstr "SELECT", sp1,
    rplus (.tst (.cls false [.digit, .ch '\'', .ch '"'])), sp0, tch ')']

/-- Pattern `CAST\s*\(\s*(\w+)\s+AS\s+(\w+)\s*\).*\1.*\2`. -/
def pat_redundant_cast : Re :=
  rcat [rstr "CAST", sp0, tch '(', sp0, .grp 1 wd1, sp1, rstr "AS", sp1,
    .grp 2 wd1, sp0, tch ')', dot0, .bref 1, dot0, .bref 2]

/-- Pattern `COALESCE\s*\(\s*(\w+)\s*\)(?!\s*,)`. -/
def pat_unnecessary_coalesce : Re :=
  rcat [rstr "COALESCE", sp0, tch '(', sp0, .grp 1 wd1, sp0, tch ')',
    .nla (rcat [sp0, tch ','])]

/-- Pattern `\(\s*\(\s*SELECT`. -/
def pat_redundant_parentheses : Re :=
  rcat [tch '(', sp0, tch '(', sp0, rstr "SELECT"]

/-- Pattern `SELECT.*(\w+).*,.*\1`. -/
def pat_duplicate_column_select : Re :=
  rcat [rstr "SELECT", dot0, .grp 1 wd1, dot0, tch ',', dot0, .bref 1]

/-- Pattern `INSERT\s+INTO\s+\w+\s+VALUES`. -/
def pat_insert_no_columns : Re :=
  rcat [rstr "INSERT", sp1, rstr "INTO", sp1, wd1, sp1, rstr "VALUES"]

/-- Pattern `INSERT\s+INTO.*SELECT\s+\*`. -/
def pat_insert_select_star : Re :=
  rcat [rstr "INSERT", sp1, rstr "INTO", dot0, rstr "SELECT", sp1, tch '*']

/-- Pattern `TRUNCATE\s+TABLE\s+\w+(?!\s+CASCADE)`. -/
def pat_truncate_no_cascade : Re :=
  rcat [rstr "TRUNCATE", sp1, rstr "TABLE", sp1, wd1, .nla (rcat [sp1, rstr "CASCADE"])]

/-- Pattern `DROP\s+(TABLE|VIEW|INDEX)\s+(?!IF\s+EXISTS)`. -/
def pat_drop_no_if_exists : Re :=
  rcat [rstr "DROP", sp1, .grp 1 (ralts [rstr "TABLE", rstr "VIEW", rstr "INDEX"]),
    sp1, .nla (rcat [rstr "IF", sp1, rstr "EXISTS"])]

/-- Pattern `\b(select|from|where|join|insert|update|delete|create|alter|drop)\b`. -/
def pat_lowercase_keyword : Re :=
  rcat [.wb,
    .grp 1 (ralts [rstr "select", rstr "from", rstr "where", rstr "join", rstr "insert",
      rstr "update", rstr "delete", rstr "create", rstr "alter", rstr "drop"]),
    .wb]

/-- Pattern `FROM\s+([a-z]+[A-Z]|[A-Z]+[a-z])\w+`. -/
def pat_mixed_case_table : Re :=
  rcat [rstr "FROM", sp1,
    .grp 1 (ralts
      [rcat [rplus (.tst (.cls false [.range 'a' 'z'])), .tst (.cls false [.range 'A' 'Z'])],
       rcat [rplus (.tst (.cls false [.range 'A' 'Z'])), .tst (.cls false [.range 'a' 'z'])]]),
    wd1]

/-- Pattern `--.*\b(TODO|FIXME|HACK|XXX)\b`. -/
def pat_todo_comment : Re :=
  rcat [rstr "--", dot0, .wb,
    .grp 1 (ralts [rstr "TODO", rstr "FIXME", rstr "HACK", rstr "XXX"]), .wb]

/-- Pattern `\b\d{1,3}\.\d{1,3}\.\d{1,3}\.\d{1,3}\b` (no flags). -/
def pat_hardcoded_ip : Re :=
  rcat [.wb, rbetween 1 3 (.tst .digit), tch '.', rbetween 1 3 (.tst .digit), tch '.',
    rbetween 1 3 (.tst .digit), tch '.', rbetween 1 3 (.tst .digit), .wb]

/-- Pattern `https?://[^\s'"]+`. -/
def pat_hardcoded_url : Re :=
  rcat [rstr "http", ropt (tch 's'), rstr "://",
    rplus (.tst (.cls true [.space, .ch '\'', .ch '"']))]

/-- Pattern `(password|pwd|pass)\s*=\s*['"][^'"]+['"]`. -/
def pat_hardcoded_password : Re :=
  rcat [.grp 1 (ralts [rstr "password", rstr "pwd", rstr "pass"]), sp0, tch '=', sp0,
    qch, rplus (.tst (.cls true [.ch '\'', .ch '"'])), qch]

/-- Pattern `WHERE\s+\w+\s*=\s*(\d{2,})\b`. -/
def pat_magic_number : Re :=
  rcat [rstr "WHERE", sp1, wd1, sp0, tch '=', sp0,
    .grp 1 (ratLeast 2 (.tst .digit)), .wb]

/-- Pattern `['"]20\d{2}-\d{2}-\d{2}['"]`. -/
def pat_hardcoded_date : Re :=
  rcat [qch, rstr "20", d2, tch '-', d2, tch '-', d2, qch]

/-- Pattern `(api_key|apikey|token)\s*=\s*['"][a-zA-Z0-9]{20,}['"]`. -/
def pat_api_key_pattern : Re :=
  rcat [.grp 1 (ralts [rstr "api_key", rstr "apikey", rstr "token"]), sp0, tch '=', sp0,
    qch, ratLeast 20 (.tst (.cls false [.range 'a' 'z', .range 'A' 'Z', .range '0' '9'])), qch]

/-- Pattern `[a-zA-Z0-9._%+-]+@[a-zA-Z0-9.-]+\.[a-zA-Z]{2,}` (no flags). -/
def pat_email_in_query : Re :=
  rcat [rplus (.tst (.cls false [.range 'a' 'z', .range 'A' 'Z', .range '0' '9',
      .ch '.', .ch '_', .ch '%', .ch '+', .ch '-'])),
    tch '@',
    rplus (.tst (.cls false [.range 'a' 'z', .range 'A' 'Z', .range '0' '9', .ch '.', .ch '-'])),
    tch '.', ratLeast 2 (.tst (.cls false [.range 'a' 'z', .range 'A' 'Z']))]

/-- Pattern `(JOIN.*){3,}`. -/
def pat_uncommented_complex_query : Re :=
  ratLeast 3 (.grp 1 (rcat [rstr "JOIN", dot0]))

/-- Pattern ` +$` (`re.MULTILINE`, no IGNORECASE). -/
def pat_trailing_whitespace : Re := rcat [rplus (tch ' '), .eol]

/-- Pattern `  +` (no flags). -/
def pat_multiple_spaces : Re := rcat [tch ' ', rplus (tch ' ')]

/-- Pattern `UNION\s+ALL.*UNION(?!\s+ALL)`. -/
def pat_mixed_union : Re :=
  rcat [rstr "UNION", sp1, rstr "ALL", dot0, rstr "UNION", .nla (rcat [sp1, rstr "ALL"])]

/-- Pattern `EXCEPT|MINUS`. -/
def pat_except_over_not_exists : Re := ralts [rstr "EXCEPT", rstr "MINUS"]

/-- Pattern `INTERSECT`. -/
def pat_intersect_over_join : Re := rstr "INTERSECT"

/-- Pattern `\b(NOW|CURRENT_TIMESTAMP|GETDATE)\s*\(\s*\)(?!.*AT\s+TIME\s+ZONE)`. -/
def pat_now_without_timezone : Re :=
  rcat [.wb, .grp 1 (ralts [rstr "NOW", rstr "CURRENT_TIMESTAMP", rstr "GETDATE"]),
    sp0, tch '(', sp0, tch ')',
    .nla (rcat [dot0, rstr "AT", sp1, rstr "TIME", sp1, rstr "ZONE"])]

/-- Pattern `(created_at|updated_at)\s*[+-]\s*\d+(?!\s+INTERVAL)`. -/
def pat_date_math_no_interval : Re :=
  rcat [.grp 1 (ralts [rstr "created_at", rstr "updated_at"]), sp0,
    .tst (.cls false [.ch '+', .ch '-']), sp0, dg1, .nla (rcat [sp1, rstr "INTERVAL"])]

/-- Pattern `WHERE.*STRFTIME|DATE_FORMAT`. -/
def pat_strftime_in_where : Re :=
  ralts [rcat [rstr "WHERE", dot0, rstr "STRFTIME"], rstr "DATE_FORMAT"]

/-- Pattern `WHERE.*EXTRACT\s*\(`. -/
def pat_extract_in_where : Re :=
  rcat [rstr "WHERE", dot0, rstr "EXTRACT", sp0, tch '(']

/-- Pattern `WHERE\s+\w+\s+IN\s*\(\s*SELECT`. -/
def pat_in_subquery_over_exists : Re :=
  rcat [rstr "WHERE", sp1, wd1, sp1, rstr "IN", sp0, tch '(', sp0, rstr "SELECT"]

/-- Pattern `WHERE\s+\(\s*SELECT\s+COUNT`. -/
def pat_exists_over_count : Re :=
  rcat [rstr "WHERE", sp1, tch '(', sp0, rstr "SELECT", sp1, rstr "COUNT"]

/-- Pattern `LIKE\s+['"]%\w+%\w+%`. -/
def pat_like_complex_pattern : Re :=
  rcat [rstr "LIKE", sp1, qch, tch '%', wd1, tch '%', wd1, tch '%']

/-- Pattern `WHERE.*~|REGEXP|RLIKE`. -/
def pat_regexp_in_where : Re :=
  ralts [rcat [rstr "WHERE", dot0, tch '~'], rstr "REGEXP", rstr "RLIKE"]

/-- Pattern `JSON_EXTRACT|->|->>`. -/
def pat_json_extract_unindexed : Re :=
  ralts [rstr "JSON_EXTRACT", rstr "->", rstr "->>"]

/-- Pattern `(ROW_NUMBER|RANK|DENSE_RANK)\s*\(\s*\)(?!.*PARTITION)`. -/
def pat_window_function_no_partition : Re :=
  rcat [.grp 1 (ralts [rstr "ROW_NUMBER", rstr "RANK", rstr "DENSE_RANK"]),
    sp0, tch '(', sp0, tch ')', .nla (rcat [dot0, rstr "PARTITION"])]

/-- Pattern `WITH\s+(\w+)\s+AS.*SELECT(?!.*\1)`. -/
def pat_cte_unused : Re :=
  rcat [rstr "WITH", sp1, .grp 1 wd1, sp1, rstr "AS", dot0, rstr "SELECT",
    .nla (rcat [dot0, .bref 1])]

/-- Pattern `WITH\s+RECURSIVE.*(?!LIMIT)`. -/
def pat_recursive_cte_no_limit : Re :=
  rcat [rstr "WITH", sp1, rstr "RECURSIVE", dot0, .nla (rstr "LIMIT")]

/-- Pattern `NATURAL\s+JOIN`. -/
def pat_natural_join : Re := rcat [rstr "NATURAL", sp1, rstr "JOIN"]

/-- Pattern `LEFT\s+JOIN.*WHERE.*IS\s+NOT\s+NULL`. -/
def pat_outer_join_where_nulls : Re :=
  rcat [rstr "LEFT", sp1, rstr "JOIN", dot0, rstr "WHERE", dot0,
    rstr "IS", sp1, rstr "NOT", sp1, rstr "NULL"]

/-- Pattern `RIGHT\s+JOIN`. -/
def pat_right_join_usage : Re := rcat [rstr "RIGHT", sp1, rstr "JOIN"]

/-- Pattern `FULL\s+OUTER\s+JOIN`. -/
def pat_full_outer_join : Re := rcat [rstr "FULL", sp1, rstr "OUTER", sp1, rstr "JOIN"]

/-- Pattern `FOR\s+UPDATE(?!\s+NOWAIT|\s+SKIP\s+LOCKED)`. -/
def pat_select_for_update_no_wait : Re :=
  rcat [rstr "FOR", sp1, rstr "UPDATE",
    .nla (ralts [rcat [sp1, rstr "NOWAIT"], rcat [sp1, rstr "SKIP", sp1, rstr "LOCKED"]])]

/-- Pattern `VARCHAR\s*\(\s*MAX\s*\)|VARCHAR\s*\(\s*\d{4,}\s*\)`. -/
def pat_varchar_max : Re :=
  ralts [rcat [rstr "VARCHAR", sp0, tch '(', sp0, rstr "MAX", sp0, tch ')'],
    rcat [rstr "VARCHAR", sp0, tch '(', sp0, ratLeast 4 (.tst .digit), sp0, tch ')']]

/-- Pattern `\bTEXT\b`. -/
def pat_text_vs_varchar : Re := rcat [.wb, rstr "TEXT", .wb]

/-- Pattern `DECIMAL(?!\s*\(\d+\s*,\s*\d+\))`. -/
def pat_decimal_no_precision : Re :=
  rcat [rstr "DECIMAL",
    .nla (rcat [sp0, tch '(', dg1, sp0, tch ',', sp0, dg1, tch ')'])]

/-- Pattern `DECLARE.*CURSOR`. -/
def pat_cursor_usage : Re := rcat [rstr "DECLARE", dot0, rstr "CURSOR"]

/-- Pattern `WHILE\s+.*BEGIN`. -/
def pat_while_loop : Re := rcat [rstr "WHILE", sp1, dot0, rstr "BEGIN"]

/-- Pattern `EXEC\s*\(|EXECUTE\s*\(|sp_executesql`. -/
def pat_dynamic_sql : Re :=
  ralts [rcat [rstr "EXEC", sp0, tch '('], rcat [rstr "EXECUTE", sp0, tch '('],
    rstr "sp_executesql"]

/-- Pattern `=\s*['"].*\+|CONCAT\s*\(.*['"].*\)`. -/
def pat_sql_injection_risk : Re :=
  ralts [rcat [tch '=', sp0, qch, dot0, tch '+'],
    rcat [rstr "CONCAT", sp0, tch '(', dot0, qch, dot0, tch ')']]

/-- Pattern `GRANT\s+ALL`. -/
def pat_grant_all : Re := rcat [rstr "GRANT", sp1, rstr "ALL"]

/-- Pattern `=\s*\(\s*SELECT.*(?!LIMIT\s+1)`. -/
def pat_scalar_subquery_multiple_rows : Re :=
  rcat [tch '=', sp0, tch '(', sp0, rstr "SELECT", dot0,
    .nla (rcat [rstr "LIMIT", sp1, tch '1'])]

/-- Pattern `\(\s*SELECT.*\(\s*SELECT.*\(\s*SELECT`. -/
def pat_nested_subquery_deep : Re :=
  rcat [tch '(', sp0, rstr "SELECT", dot0, tch '(', sp0, rstr "SELECT", dot0,
    tch '(', sp0, rstr "SELECT"]

/-! ## Detector data model (`detector.py`)

Every detector method in the source constructs its `DetectedIssue`
with `query=original_query` and `line_number=line_num` and otherwise
fixed fields (only the two threshold detectors compute their
`description` from the matched text), so the embedding factors each
method into a `DetectorSpec`: a firing condition on the normalized
text plus the issue fields; `runDetector` rebuilds the exact
`DetectedIssue` of the source. -/

/-- `IssueSeverity` enumeration of `detector.py`. -/
inductive IssueSeverity where
  | low
  | medium
  | high
  | critical
deriving Repr, DecidableEq

/-- `DetectedIssue` dataclass of `detector.py`. -/
structure DetectedIssue where
  issue_type : String
  query : String
  description : String
  fix : String
  impact : String
  severity : IssueSeverity
  line_number : Option Nat := none
deriving Repr, DecidableEq

/-- One catalog entry: the dict key of `_get_all_detectors`, the fixed
issue fields of the corresponding `_detect_*` method, and its firing
condition on the normalized query text. -/
structure DetectorSpec where
  key : String
  issue_type : String
  description : String → String
  fix : String
  impact : String
  severity : IssueSeverity
  cond : String → Bool

/-- Catalog entry `select_star` (`QueryDetector._detect_select_star`). -/
def d_select_star : DetectorSpec where
  key := "select_star"
  issue_type := "SELECT * Usage"
  description := fun _ => "Query retrieves all columns unnecessarily"
  fix := "Specify only needed columns"
  impact := "50-90% less data transfer, enables covering indexes"
  severity := .medium
  cond := fun clean => reTest true pat_select_star clean

/-- Catalog entry `missing_where` (`QueryDetector._detect_missing_where_update_delete`). -/
def d_missing_where : DetectorSpec where
  key := "missing_where"
  issue_type := "Missing WHERE in UPDATE/DELETE"
  description := fun _ => "UPDATE/DELETE without WHERE affects entire table"
  fix := "Add WHERE clause or use TRUNCATE if intentional"
  impact := "Can delete/update entire table accidentally"
  severity := .critical
  cond := fun clean => reMatchStart true pat_missing_where clean && !(hasSub "WHERE".data (pyUpper clean.data))

/-- Catalog entry `non_sargable` (`QueryDetector._detect_non_sargable`). -/
def d_non_sargable : DetectorSpec where
  key := "non_sargable"
  issue_type := "Non-SARGable WHERE"
  description := fun _ => "WHERE clause prevents index usage"
  fix := "Use date range or functional index"
  impact := "Full table scan instead of index seek"
  severity := .high
  cond := fun clean => reTest true pat_non_sargable clean

/-- Catalog entry `implicit_conversion` (`QueryDetector._detect_implicit_conversion`). -/
def d_implicit_conversion : DetectorSpec where
  key := "implicit_conversion"
  issue_type := "Implicit Type Conversion"
  description := fun _ => "Comparing string column to number forces conversion"
  fix := "Use proper quotes for string values"
  impact := "Prevents index usage, causes full table scan"
  severity := .high
  cond := fun clean => reTest true pat_implicit_conversion clean

/-- Catalog entry `cartesian_product` (`QueryDetector._detect_cartesian_product`). -/
def d_cartesian_product : DetectorSpec where
  key := "cartesian_product"
  issue_type := "Cartesian Product"
  description := fun _ => "Multiple tables without JOIN condition"
  fix := "Add proper JOIN conditions"
  impact := "Result set explodes exponentially"
  severity := .critical
  cond := fun clean => reTest true pat_cartesian_product clean && !(reTest true pat_where_or_join clean)

/-- Catalog entry `n_plus_1` (`QueryDetector._detect_n_plus_1_pattern`). -/
def d_n_plus_1 : DetectorSpec where
  key := "n_plus_1"
  issue_type := "Potential N+1 Pattern"
  description := fun _ => "Query pattern suggests N+1 issue when in loop"
  fix := "Use JOIN or WHERE IN batch query"
  impact := "Network roundtrips multiply by N"
  severity := .high
  cond := fun clean => reTest true pat_n_plus_1 clean

/-- Catalog entry `correlated_subquery` (`QueryDetector._detect_correlated_subquery`). -/
def d_correlated_subquery : DetectorSpec where
  key := "correlated_subquery"
  issue_type := "Correlated Subquery"
  description := fun _ => "Subquery executes once per row"
  fix := "Rewrite as JOIN or pre-calculate values"
  impact := "O(n\u00c2\u00b2) performance degradation"
  severity := .high
  cond := fun clean => reTest true pat_correlated_subquery clean

/-- Catalog entry `or_prevents_index` (`QueryDetector._detect_or_prevents_index`). -/
def d_or_prevents_index : DetectorSpec where
  key := "or_prevents_index"
  issue_type := "OR Prevents Index"
  description := fun _ => "OR across different columns prevents index usage"
  fix := "Use UNION or redesign query logic"
  impact := "Forces full table scan"
  severity := .medium
  cond := fun clean => reTest true pat_or_prevents_index clean

/-- Catalog entry `offset_pagination` (`QueryDetector._detect_offset_pagination`). -/
def d_offset_pagination : DetectorSpec where
  key := "offset_pagination"
  issue_type := "Large OFFSET Pagination"
  description := fun clean => match reGroup1 true pat_offset_pagination clean with | some d => "OFFSET " ++ Nat.repr (natOfDigits d) ++ " reads and discards " ++ Nat.repr (natOfDigits d) ++ " rows" | none => ""
  fix := "Use cursor-based pagination with WHERE id > last_id"
  impact := "Performance degrades linearly with offset"
  severity := .high
  cond := fun clean => match reGroup1 true pat_offset_pagination clean with | some d => decide (1000 < natOfDigits d) | none => false

/-- Catalog entry `distinct_unnecessary` (`QueryDetector._detect_unnecessary_distinct`). -/
def d_distinct_unnecessary : DetectorSpec where
  key := "distinct_unnecessary"
  issue_type := "Unnecessary DISTINCT"
  description := fun _ => "DISTINCT on already-unique column"
  fix := "Remove DISTINCT for unique columns"
  impact := "Adds unnecessary sorting overhead"
  severity := .low
  cond := fun clean => reTest true pat_distinct_unnecessary clean

/-- Catalog entry `in_clause_large` (`QueryDetector._detect_huge_in_list`). -/
def d_in_clause_large : DetectorSpec where
  key := "in_clause_large"
  issue_type := "Massive IN List"
  description := fun clean => match reGroup1 true pat_huge_in_list clean with | some v => "IN clause with " ++ Nat.repr (splitOnChar (',') v).length ++ " values" | none => ""
  fix := "Use temp table JOIN instead"
  impact := "Query parser overhead, plan cache bloat"
  severity := .high
  cond := fun clean => match reGroup1 true pat_huge_in_list clean with | some v => decide (50 < (splitOnChar (',') v).length) | none => false

/-- Catalog entry `like_leading_wildcard` (`QueryDetector._detect_leading_wildcard`). -/
def d_like_leading_wildcard : DetectorSpec where
  key := "like_leading_wildcard"
  issue_type := "Leading Wildcard"
  description := fun _ => "Leading % prevents index usage"
  fix := "Use full-text search or redesign query"
  impact := "Forces full table scan"
  severity := .high
  cond := fun clean => reTest true pat_leading_wildcard clean

/-- Catalog entry `count_star_exists` (`QueryDetector._detect_count_star_exists`). -/
def d_count_star_exists : DetectorSpec where
  key := "count_star_exists"
  issue_type := "COUNT(*) for Existence"
  description := fun _ => "Using COUNT(*) to check if rows exist"
  fix := "Use EXISTS instead"
  impact := "Counts all rows instead of stopping at first"
  severity := .medium
  cond := fun clean => reTest true pat_count_star_exists clean

/-- Catalog entry `not_in_null` (`QueryDetector._detect_not_in_nullable`). -/
def d_not_in_null : DetectorSpec where
  key := "not_in_null"
  issue_type := "NOT IN with NULLable"
  description := fun _ => "NOT IN with subquery fails if any NULL values"
  fix := "Use NOT EXISTS instead"
  impact := "Query returns no results if subquery contains NULL"
  severity := .high
  cond := fun clean => reTest true pat_not_in_nullable clean

/-- Catalog entry `missing_limit_exists` (`QueryDetector._detect_no_limit_in_exists`). -/
def d_missing_limit_exists : DetectorSpec where
  key := "missing_limit_exists"
  issue_type := "EXISTS without LIMIT"
  description := fun _ => "EXISTS checks all rows unnecessarily"
  fix := "Add LIMIT 1 to EXISTS subquery"
  impact := "Continues scanning after first match"
  severity := .low
  cond := fun clean => reTest true pat_no_limit_exists clean

/-- Catalog entry `floating_point_equals` (`QueryDetector._detect_floating_point_equality`). -/
def d_floating_point_equals : DetectorSpec where
  key := "floating_point_equals"
  issue_type := "Floating Point Equality"
  description := fun _ => "Exact equality on floating point values"
  fix := "Use range comparison or DECIMAL type"
  impact := "May miss values due to precision issues"
  severity := .medium
  cond := fun clean => reTest true pat_floating_point_equals clean

/-- Catalog entry `null_comparison` (`QueryDetector._detect_null_comparison_with_equal`). -/
def d_null_comparison : DetectorSpec where
  key := "null_comparison"
  issue_type := "NULL Comparison Error"
  description := fun _ => "Using = or != with NULL always returns UNKNOWN"
  fix := "Use IS NULL or IS NOT NULL"
  impact := "Condition never matches any rows"
  severity := .critical
  cond := fun clean => reTest true pat_null_comparison clean

/-- Catalog entry `function_on_column` (`QueryDetector._detect_function_on_indexed_column`). -/
def d_function_on_column : DetectorSpec where
  key := "function_on_column"
  issue_type := "Function on Indexed Column"
  description := fun _ => "Function on column prevents index usage"
  fix := "Create functional index or rewrite condition"
  impact := "Full table scan instead of index seek"
  severity := .high
  cond := fun clean => reTest true pat_function_on_column clean

/-- Catalog entry `having_no_aggregates` (`QueryDetector._detect_having_instead_of_where`). -/
def d_having_no_aggregates : DetectorSpec where
  key := "having_no_aggregates"
  issue_type := "HAVING Instead of WHERE"
  description := fun _ => "HAVING filters after grouping"
  fix := "Use WHERE for row filtering before GROUP BY"
  impact := "Processes all rows before filtering"
  severity := .medium
  cond := fun clean => reTest true pat_having_no_aggregates clean && !(hasSub "WHERE".data (pyUpper clean.data))

/-- Catalog entry `union_missing_all` (`QueryDetector._detect_union_missing_all`). -/
def d_union_missing_all : DetectorSpec where
  key := "union_missing_all"
  issue_type := "UNION Missing ALL"
  description := fun _ => "UNION performs unnecessary deduplication"
  fix := "Use UNION ALL if duplicates are acceptable"
  impact := "Adds expensive DISTINCT operation"
  severity := .medium
  cond := fun clean => reTest true pat_union_missing_all clean

/-- Catalog entry `subquery_select_list` (`QueryDetector._detect_subquery_in_select_list`). -/
def d_subquery_select_list : DetectorSpec where
  key := "subquery_select_list"
  issue_type := "Subquery in SELECT List"
  description := fun _ => "Subquery executes for every row"
  fix := "Convert to JOIN or pre-calculate"
  impact := "O(n) subquery executions"
  severity := .high
  cond := fun clean => reTest true pat_subquery_select_list clean

/-- Catalog entry `between_timestamps` (`QueryDetector._detect_between_with_timestamps`). -/
def d_between_timestamps : DetectorSpec where
  key := "between_timestamps"
  issue_type := "BETWEEN with Timestamps"
  description := fun _ => "BETWEEN with dates may miss end-of-day records"
  fix := "Use >= start AND < end+1 day"
  impact := "Misses records with time components"
  severity := .medium
  cond := fun clean => reTest true pat_between_timestamps clean

/-- Catalog entry `case_in_where` (`QueryDetector._detect_case_in_where`). -/
def d_case_in_where : DetectorSpec where
  key := "case_in_where"
  issue_type := "CASE in WHERE Clause"
  description := fun _ => "Complex CASE in WHERE prevents optimization"
  fix := "Simplify logic or move to application"
  impact := "Prevents index usage and predicate pushdown"
  severity := .medium
  cond := fun clean => reTest true pat_case_in_where clean

/-- Catalog entry `offset_no_order` (`QueryDetector._detect_offset_without_order`). -/
def d_offset_no_order : DetectorSpec where
  key := "offset_no_order"
  issue_type := "OFFSET without ORDER BY"
  description := fun _ => "OFFSET without ORDER BY returns random results"
  fix := "Add ORDER BY for deterministic results"
  impact := "Different results each execution"
  severity := .high
  cond := fun clean => reTest true pat_offset_no_order clean

/-- Catalog entry `like_no_wildcard` (`QueryDetector._detect_like_without_wildcard`). -/
def d_like_no_wildcard : DetectorSpec where
  key := "like_no_wildcard"
  issue_type := "LIKE without Wildcards"
  description := fun _ => "LIKE without wildcards should be ="
  fix := "Use = for exact matches"
  impact := "Slightly slower than equality check"
  severity := .low
  cond := fun clean => reTest true pat_like_no_wildcard clean

/-- Catalog entry `order_by_ordinal` (`QueryDetector._detect_order_by_ordinal`). -/
def d_order_by_ordinal : DetectorSpec where
  key := "order_by_ordinal"
  issue_type := "ORDER BY Ordinal"
  description := fun _ => "ORDER BY position number is fragile"
  fix := "Use column names explicitly"
  impact := "Breaks when SELECT list changes"
  severity := .low
  cond := fun clean => reTest true pat_order_by_ordinal clean

/-- Catalog entry `ambiguous_order_by` (`QueryDetector._detect_ambiguous_order_by`). -/
def d_ambiguous_order_by : DetectorSpec where
  key := "ambiguous_order_by"
  issue_type := "Ambiguous ORDER BY"
  description := fun _ => "ORDER BY without unique key may be non-deterministic"
  fix := "Add unique column (e.g., id) to ORDER BY"
  impact := "Results may vary across executions"
  severity := .medium
  cond := fun clean => reTest true pat_ambiguous_order_by clean

/-- Catalog entry `missing_case_else` (`QueryDetector._detect_missing_case_else`). -/
def d_missing_case_else : DetectorSpec where
  key := "missing_case_else"
  issue_type := "Missing CASE ELSE"
  description := fun _ => "CASE without ELSE may return NULL unexpectedly"
  fix := "Add ELSE clause"
  impact := "Unexpected NULLs in results"
  severity := .medium
  cond := fun clean => reTest true pat_missing_case_else clean

/-- Catalog entry `redundant_or` (`QueryDetector._detect_redundant_or`). -/
def d_redundant_or : DetectorSpec where
  key := "redundant_or"
  issue_type := "Redundant OR Condition"
  description := fun _ => "Duplicate conditions in OR"
  fix := "Remove redundant terms"
  impact := "Unnecessary computation"
  severity := .low
  cond := fun clean => reTest true pat_redundant_or clean

/-- Catalog entry `contradictory_where` (`QueryDetector._detect_contradictory_where`). -/
def d_contradictory_where : DetectorSpec where
  key := "contradictory_where"
  issue_type := "Contradictory WHERE"
  description := fun _ => "Impossible conditions in WHERE"
  fix := "Remove contradictory clauses"
  impact := "Query always returns no rows"
  severity := .high
  cond := fun clean => reTest true pat_contradictory_where clean

/-- Catalog entry `always_true` (`QueryDetector._detect_always_true`). -/
def d_always_true : DetectorSpec where
  key := "always_true"
  issue_type := "Always True Condition"
  description := fun _ => "Tautology in WHERE (e.g., 1=1)"
  fix := "Remove unnecessary condition"
  impact := "Full table scan, no filtering"
  severity := .medium
  cond := fun clean => reTest true pat_always_true clean

/-- Catalog entry `always_false` (`QueryDetector._detect_always_false`). -/
def d_always_false : DetectorSpec where
  key := "always_false"
  issue_type := "Always False Condition"
  description := fun _ => "Contradiction in WHERE (e.g., 1=0)"
  fix := "Remove or fix condition"
  impact := "Query always empty"
  severity := .high
  cond := fun clean => reTest true pat_always_false clean

/-- Catalog entry `tautology` (`QueryDetector._detect_tautology`). -/
def d_tautology : DetectorSpec where
  key := "tautology"
  issue_type := "Tautology in WHERE"
  description := fun _ => "Always-true logic (e.g., col IS NULL OR NOT NULL)"
  fix := "Simplify condition"
  impact := "No effective filtering"
  severity := .medium
  cond := fun clean => reTest true pat_tautology clean

/-- Catalog entry `contradiction` (`QueryDetector._detect_contradiction`). -/
def d_contradiction : DetectorSpec where
  key := "contradiction"
  issue_type := "Contradiction in WHERE"
  description := fun _ => "Always-false logic (e.g., col IS NULL AND NOT NULL)"
  fix := "Remove condition"
  impact := "Always empty results"
  severity := .high
  cond := fun clean => reTest true pat_contradiction clean

/-- Catalog entry `duplicate_join` (`QueryDetector._detect_duplicate_join`). -/
def d_duplicate_join : DetectorSpec where
  key := "duplicate_join"
  issue_type := "Duplicate JOIN"
  description := fun _ => "Same table joined multiple times"
  fix := "Consolidate JOINs"
  impact := "Redundant data processing"
  severity := .medium
  cond := fun clean => reTest true pat_duplicate_join clean

/-- Catalog entry `redundant_distinct` (`QueryDetector._detect_redundant_distinct_with_group`). -/
def d_redundant_distinct : DetectorSpec where
  key := "redundant_distinct"
  issue_type := "Redundant DISTINCT with GROUP BY"
  description := fun _ => "DISTINCT unnecessary with GROUP BY"
  fix := "Remove DISTINCT"
  impact := "Extra overhead"
  severity := .low
  cond := fun clean => reTest true pat_redundant_distinct clean

/-- Catalog entry `redundant_alias` (`QueryDetector._detect_redundant_alias`). -/
def d_redundant_alias : DetectorSpec where
  key := "redundant_alias"
  issue_type := "Redundant Alias"
  description := fun _ => "Alias same as column name"
  fix := "Remove alias"
  impact := "Unnecessary clutter"
  severity := .low
  cond := fun clean => reTest true pat_redundant_alias clean

/-- Catalog entry `trivial_subquery` (`QueryDetector._detect_trivial_subquery`). -/
def d_trivial_subquery : DetectorSpec where
  key := "trivial_subquery"
  issue_type := "Trivial Subquery"
  description := fun _ => "Subquery with constant value"
  fix := "Inline the constant"
  impact := "Unnecessary subquery overhead"
  severity := .low
  cond := fun clean => reTest true pat_trivial_subquery clean

/-- Catalog entry `redundant_cast` (`QueryDetector._detect_redundant_cast`). -/
def d_redundant_cast : DetectorSpec where
  key := "redundant_cast"
  issue_type := "Redundant CAST"
  description := fun _ => "CAST to same type"
  fix := "Remove CAST"
  impact := "Unnecessary type conversion"
  severity := .low
  cond := fun clean => reTest true pat_redundant_cast clean

/-- Catalog entry `unnecessary_coalesce` (`QueryDetector._detect_unnecessary_coalesce`). -/
def d_unnecessary_coalesce : DetectorSpec where
  key := "unnecessary_coalesce"
  issue_type := "Unnecessary COALESCE"
  description := fun _ => "COALESCE with single argument"
  fix := "Remove COALESCE"
  impact := "Extra function call"
  severity := .low
  cond := fun clean => reTest true pat_unnecessary_coalesce clean

/-- Catalog entry `redundant_parentheses` (`QueryDetector._detect_redundant_parentheses`). -/
def d_redundant_parentheses : DetectorSpec where
  key := "redundant_parentheses"
  issue_type := "Redundant Parentheses"
  description := fun _ => "Nested parentheses unnecessarily"
  fix := "Simplify expression"
  impact := "Readability issue"
  severity := .low
  cond := fun clean => reTest true pat_redundant_parentheses clean

/-- Catalog entry `duplicate_column_select` (`QueryDetector._detect_duplicate_column_select`). -/
def d_duplicate_column_select : DetectorSpec where
  key := "duplicate_column_select"
  issue_type := "Duplicate Column in SELECT"
  description := fun _ => "Same column selected multiple times"
  fix := "Remove duplicates"
  impact := "Redundant data transfer"
  severity := .low
  cond := fun clean => reTest true pat_duplicate_column_select clean

/-- Catalog entry `insert_no_columns` (`QueryDetector._detect_insert_no_columns`). -/
def d_insert_no_columns : DetectorSpec where
  key := "insert_no_columns"
  issue_type := "INSERT without Columns"
  description := fun _ => "INSERT VALUES without column list"
  fix := "Specify column names"
  impact := "Breaks if table schema changes"
  severity := .medium
  cond := fun clean => reTest true pat_insert_no_columns clean

/-- Catalog entry `insert_select_star` (`QueryDetector._detect_insert_select_star`). -/
def d_insert_select_star : DetectorSpec where
  key := "insert_select_star"
  issue_type := "INSERT SELECT *"
  description := fun _ => "SELECT * in INSERT can break on schema changes"
  fix := "Specify columns"
  impact := "Fragile to schema evolution"
  severity := .medium
  cond := fun clean => reTest true pat_insert_select_star clean

/-- Catalog entry `truncate_no_cascade` (`QueryDetector._detect_truncate_no_cascade`). -/
def d_truncate_no_cascade : DetectorSpec where
  key := "truncate_no_cascade"
  issue_type := "TRUNCATE without CASCADE"
  description := fun _ => "May fail with foreign keys"
  fix := "Add CASCADE if needed"
  impact := "Runtime errors on related tables"
  severity := .high
  cond := fun clean => reTest true pat_truncate_no_cascade clean

/-- Catalog entry `drop_no_if_exists` (`QueryDetector._detect_drop_no_if_exists`). -/
def d_drop_no_if_exists : DetectorSpec where
  key := "drop_no_if_exists"
  issue_type := "DROP without IF EXISTS"
  description := fun _ => "Fails if object doesn\x27t exist"
  fix := "Add IF EXISTS"
  impact := "Script failures in idempotent ops"
  severity := .medium
  cond := fun clean => reTest true pat_drop_no_if_exists clean

/-- Catalog entry `lowercase_keyword` (`QueryDetector._detect_lowercase_keywords`). -/
def d_lowercase_keyword : DetectorSpec where
  key := "lowercase_keyword"
  issue_type := "Lowercase Keywords"
  description := fun _ => "SQL keywords in lowercase"
  fix := "Use uppercase for keywords"
  impact := "Style inconsistency"
  severity := .low
  cond := fun clean => reTest true pat_lowercase_keyword clean

/-- Catalog entry `mixed_case_table` (`QueryDetector._detect_mixed_case_identifiers`). -/
def d_mixed_case_table : DetectorSpec where
  key := "mixed_case_table"
  issue_type := "Mixed Case Identifiers"
  description := fun _ => "Table/column names with mixed case"
  fix := "Use consistent casing (e.g., snake_case)"
  impact := "Portability issues across DBs"
  severity := .low
  cond := fun clean => reTest true pat_mixed_case_table clean

/-- Catalog entry `todo_comment` (`QueryDetector._detect_todo_comments`). -/
def d_todo_comment : DetectorSpec where
  key := "todo_comment"
  issue_type := "TODO Comment"
  description := fun _ => "Unresolved TODO/FIXME in comments"
  fix := "Resolve or remove"
  impact := "Potential unfinished code"
  severity := .medium
  cond := fun clean => reTest true pat_todo_comment clean

/-- Catalog entry `hardcoded_ip` (`QueryDetector._detect_hardcoded_ip`). -/
def d_hardcoded_ip : DetectorSpec where
  key := "hardcoded_ip"
  issue_type := "Hardcoded IP"
  description := fun _ => "IP address hardcoded in query"
  fix := "Use parameters or config"
  impact := "Security/maintenance risk"
  severity := .high
  cond := fun clean => reTest false pat_hardcoded_ip clean

/-- Catalog entry `hardcoded_url` (`QueryDetector._detect_hardcoded_url`). -/
def d_hardcoded_url : DetectorSpec where
  key := "hardcoded_url"
  issue_type := "Hardcoded URL"
  description := fun _ => "URL hardcoded in query"
  fix := "Use parameters"
  impact := "Inflexible and risky"
  severity := .medium
  cond := fun clean => reTest true pat_hardcoded_url clean

/-- Catalog entry `hardcoded_password` (`QueryDetector._detect_hardcoded_password`). -/
def d_hardcoded_password : DetectorSpec where
  key := "hardcoded_password"
  issue_type := "Hardcoded Password"
  description := fun _ => "Password in plain text"
  fix := "Use secrets management"
  impact := "Severe security vulnerability"
  severity := .critical
  cond := fun clean => reTest true pat_hardcoded_password clean

/-- Catalog entry `magic_number` (`QueryDetector._detect_magic_numbers`). -/
def d_magic_number : DetectorSpec where
  key := "magic_number"
  issue_type := "Magic Number"
  description := fun _ => "Hardcoded numeric constant"
  fix := "Use named constants or parameters"
  impact := "Hard to maintain"
  severity := .low
  cond := fun clean => reTest true pat_magic_number clean

/-- Catalog entry `hardcoded_date` (`QueryDetector._detect_hardcoded_dates`). -/
def d_hardcoded_date : DetectorSpec where
  key := "hardcoded_date"
  issue_type := "Hardcoded Date"
  description := fun _ => "Specific date hardcoded"
  fix := "Use dynamic dates or parameters"
  impact := "Query becomes outdated"
  severity := .medium
  cond := fun clean => reTest true pat_hardcoded_date clean

/-- Catalog entry `api_key_pattern` (`QueryDetector._detect_api_keys`). -/
def d_api_key_pattern : DetectorSpec where
  key := "api_key_pattern"
  issue_type := "API Key in Query"
  description := fun _ => "Potential API key hardcoded"
  fix := "Use secrets"
  impact := "Security breach risk"
  severity := .critical
  cond := fun clean => reTest true pat_api_key_pattern clean

/-- Catalog entry `email_in_query` (`QueryDetector._detect_email_in_query`). -/
def d_email_in_query : DetectorSpec where
  key := "email_in_query"
  issue_type := "Email in Query"
  description := fun _ => "Hardcoded email address"
  fix := "Parameterize"
  impact := "Privacy/maintenance issue"
  severity := .medium
  cond := fun clean => reTest false pat_email_in_query clean

/-- Catalog entry `uncommented_complex_query` (`QueryDetector._detect_uncommented_complex`). -/
def d_uncommented_complex_query : DetectorSpec where
  key := "uncommented_complex_query"
  issue_type := "Uncommented Complex Query"
  description := fun _ => "Complex query without comments"
  fix := "Add explanatory comments"
  impact := "Hard to maintain"
  severity := .low
  cond := fun clean => reTest true pat_uncommented_complex_query clean

/-- Catalog entry `trailing_whitespace` (`QueryDetector._detect_trailing_whitespace`). -/
def d_trailing_whitespace : DetectorSpec where
  key := "trailing_whitespace"
  issue_type := "Trailing Whitespace"
  description := fun _ => "Unnecessary trailing spaces"
  fix := "Trim whitespace"
  impact := "Style issue"
  severity := .low
  cond := fun clean => reTest false pat_trailing_whitespace clean

/-- Catalog entry `multiple_spaces` (`QueryDetector._detect_multiple_spaces`). -/
def d_multiple_spaces : DetectorSpec where
  key := "multiple_spaces"
  issue_type := "Multiple Spaces"
  description := fun _ => "Consecutive spaces in query"
  fix := "Normalize spacing"
  impact := "Style inconsistency"
  severity := .low
  cond := fun clean => reTest false pat_multiple_spaces clean

/-- Catalog entry `mixed_union` (`QueryDetector._detect_mixed_union`). -/
def d_mixed_union : DetectorSpec where
  key := "mixed_union"
  issue_type := "Mixed UNION/UNION ALL"
  description := fun _ => "Inconsistent UNION usage"
  fix := "Standardize to UNION ALL where possible"
  impact := "Unnecessary dedup"
  severity := .medium
  cond := fun clean => reTest true pat_mixed_union clean

/-- Catalog entry `except_over_not_exists` (`QueryDetector._detect_except_inefficient`). -/
def d_except_over_not_exists : DetectorSpec where
  key := "except_over_not_exists"
  issue_type := "EXCEPT/MINUS Inefficient"
  description := fun _ => "Use NOT EXISTS for better perf"
  fix := "Rewrite with NOT EXISTS"
  impact := "Slower set operations"
  severity := .medium
  cond := fun clean => reTest true pat_except_over_not_exists clean

/-- Catalog entry `intersect_over_join` (`QueryDetector._detect_intersect_inefficient`). -/
def d_intersect_over_join : DetectorSpec where
  key := "intersect_over_join"
  issue_type := "INTERSECT Inefficient"
  description := fun _ => "Use JOIN for better perf"
  fix := "Rewrite with JOIN"
  impact := "Slower set operations"
  severity := .medium
  cond := fun clean => reTest true pat_intersect_over_join clean

/-- Catalog entry `now_without_timezone` (`QueryDetector._detect_now_without_timezone`). -/
def d_now_without_timezone : DetectorSpec where
  key := "now_without_timezone"
  issue_type := "NOW without Timezone"
  description := fun _ => "Timezone-ambiguous timestamp"
  fix := "Use AT TIME ZONE"
  impact := "Incorrect times across zones"
  severity := .medium
  cond := fun clean => reTest true pat_now_without_timezone clean

/-- Catalog entry `date_math_no_interval` (`QueryDetector._detect_date_math_no_interval`). -/
def d_date_math_no_interval : DetectorSpec where
  key := "date_math_no_interval"
  issue_type := "Date Math without INTERVAL"
  description := fun _ => "Ambiguous date arithmetic"
  fix := "Use INTERVAL"
  impact := "DB-specific behavior"
  severity := .medium
  cond := fun clean => reTest true pat_date_math_no_interval clean

/-- Catalog entry `strftime_in_where` (`QueryDetector._detect_strftime_in_where`). -/
def d_strftime_in_where : DetectorSpec where
  key := "strftime_in_where"
  issue_type := "STRFTIME in WHERE"
  description := fun _ => "Non-SARGable date formatting"
  fix := "Use date ranges"
  impact := "Full scan"
  severity := .high
  cond := fun clean => reTest true pat_strftime_in_where clean

/-- Catalog entry `extract_in_where` (`QueryDetector._detect_extract_in_where`). -/
def d_extract_in_where : DetectorSpec where
  key := "extract_in_where"
  issue_type := "EXTRACT in WHERE"
  description := fun _ => "Prevents index usage"
  fix := "Use functional index or rewrite"
  impact := "Performance hit"
  severity := .high
  cond := fun clean => reTest true pat_extract_in_where clean

/-- Catalog entry `in_subquery_over_exists` (`QueryDetector._detect_in_subquery_inefficient`). -/
def d_in_subquery_over_exists : DetectorSpec where
  key := "in_subquery_over_exists"
  issue_type := "IN Subquery Inefficient"
  description := fun _ => "Use EXISTS for existence checks"
  fix := "Rewrite with EXISTS"
  impact := "Suboptimal plan"
  severity := .medium
  cond := fun clean => reTest true pat_in_subquery_over_exists clean

/-- Catalog entry `exists_over_count` (`QueryDetector._detect_exists_over_count`). -/
def d_exists_over_count : DetectorSpec where
  key := "exists_over_count"
  issue_type := "EXISTS over COUNT"
  description := fun _ => "COUNT in subquery for existence"
  fix := "Use EXISTS"
  impact := "Unnecessary counting"
  severity := .medium
  cond := fun clean => reTest true pat_exists_over_count clean

/-- Catalog entry `like_complex_pattern` (`QueryDetector._detect_like_complex_pattern`). -/
def d_like_complex_pattern : DetectorSpec where
  key := "like_complex_pattern"
  issue_type := "Complex LIKE Pattern"
  description := fun _ => "Multiple wildcards slow"
  fix := "Use full-text search"
  impact := "Exponential scan time"
  severity := .high
  cond := fun clean => reTest true pat_like_complex_pattern clean

/-- Catalog entry `regexp_in_where` (`QueryDetector._detect_regexp_in_where`). -/
def d_regexp_in_where : DetectorSpec where
  key := "regexp_in_where"
  issue_type := "REGEXP in WHERE"
  description := fun _ => "Regex prevents index usage"
  fix := "Use full-text or rewrite"
  impact := "Full scan"
  severity := .high
  cond := fun clean => reTest true pat_regexp_in_where clean

/-- Catalog entry `json_extract_unindexed` (`QueryDetector._detect_json_extract`). -/
def d_json_extract_unindexed : DetectorSpec where
  key := "json_extract_unindexed"
  issue_type := "JSON Extract Unindexed"
  description := fun _ => "JSON ops without index"
  fix := "Add JSON index"
  impact := "Slow on large JSON"
  severity := .medium
  cond := fun clean => reTest true pat_json_extract_unindexed clean

/-- Catalog entry `window_function_no_partition` (`QueryDetector._detect_window_no_partition`). -/
def d_window_function_no_partition : DetectorSpec where
  key := "window_function_no_partition"
  issue_type := "Window Function without PARTITION"
  description := fun _ => "Global window may be inefficient"
  fix := "Add PARTITION BY"
  impact := "Full sort"
  severity := .medium
  cond := fun clean => reTest true pat_window_function_no_partition clean

/-- Catalog entry `cte_unused` (`QueryDetector._detect_cte_unused`). -/
def d_cte_unused : DetectorSpec where
  key := "cte_unused"
  issue_type := "Unused CTE"
  description := fun _ => "CTE defined but not used"
  fix := "Remove unused CTE"
  impact := "Unnecessary computation"
  severity := .low
  cond := fun clean => reTest true pat_cte_unused clean

/-- Catalog entry `recursive_cte_no_limit` (`QueryDetector._detect_recursive_cte_no_limit`). -/
def d_recursive_cte_no_limit : DetectorSpec where
  key := "recursive_cte_no_limit"
  issue_type := "Recursive CTE without LIMIT"
  description := fun _ => "Risk of infinite recursion"
  fix := "Add LIMIT or termination condition"
  impact := "Potential crash"
  severity := .high
  cond := fun clean => reTest true pat_recursive_cte_no_limit clean

/-- Catalog entry `natural_join` (`QueryDetector._detect_natural_join`). -/
def d_natural_join : DetectorSpec where
  key := "natural_join"
  issue_type := "NATURAL JOIN Usage"
  description := fun _ => "Implicit column matching risky"
  fix := "Use explicit JOIN ON"
  impact := "Breaks on schema changes"
  severity := .medium
  cond := fun clean => reTest true pat_natural_join clean

/-- Catalog entry `outer_join_where_nulls` (`QueryDetector._detect_outer_join_where_nulls`). -/
def d_outer_join_where_nulls : DetectorSpec where
  key := "outer_join_where_nulls"
  issue_type := "OUTER JOIN with WHERE NOT NULL"
  description := fun _ => "Turns OUTER to INNER JOIN"
  fix := "Move to ON clause"
  impact := "Unexpected row loss"
  severity := .high
  cond := fun clean => reTest true pat_outer_join_where_nulls clean

/-- Catalog entry `right_join_usage` (`QueryDetector._detect_right_join`). -/
def d_right_join_usage : DetectorSpec where
  key := "right_join_usage"
  issue_type := "RIGHT JOIN Usage"
  description := fun _ => "Less readable than LEFT"
  fix := "Rewrite as LEFT JOIN"
  impact := "Maintainability"
  severity := .low
  cond := fun clean => reTest true pat_right_join_usage clean

/-- Catalog entry `full_outer_join` (`QueryDetector._detect_full_outer_join`). -/
def d_full_outer_join : DetectorSpec where
  key := "full_outer_join"
  issue_type := "FULL OUTER JOIN"
  description := fun _ => "Expensive and rare"
  fix := "Consider UNION of LEFT/RIGHT"
  impact := "Performance overhead"
  severity := .medium
  cond := fun clean => reTest true pat_full_outer_join clean

/-- Catalog entry `select_for_update_no_wait` (`QueryDetector._detect_select_for_update`). -/
def d_select_for_update_no_wait : DetectorSpec where
  key := "select_for_update_no_wait"
  issue_type := "SELECT FOR UPDATE without NOWAIT"
  description := fun _ => "Risk of deadlocks"
  fix := "Add NOWAIT or SKIP LOCKED"
  impact := "Concurrency issues"
  severity := .high
  cond := fun clean => reTest true pat_select_for_update_no_wait clean

/-- Catalog entry `varchar_max` (`QueryDetector._detect_varchar_max`). -/
def d_varchar_max : DetectorSpec where
  key := "varchar_max"
  issue_type := "VARCHAR(MAX)"
  description := fun _ => "Inefficient for large strings"
  fix := "Use TEXT or appropriate size"
  impact := "Memory overhead"
  severity := .medium
  cond := fun clean => reTest true pat_varchar_max clean

/-- Catalog entry `text_vs_varchar` (`QueryDetector._detect_text_column`). -/
def d_text_vs_varchar : DetectorSpec where
  key := "text_vs_varchar"
  issue_type := "TEXT vs VARCHAR"
  description := fun _ => "TEXT may be overkill"
  fix := "Use VARCHAR with limit"
  impact := "Storage inefficiency"
  severity := .low
  cond := fun clean => reTest true pat_text_vs_varchar clean

/-- Catalog entry `decimal_no_precision` (`QueryDetector._detect_decimal_no_precision`). -/
def d_decimal_no_precision : DetectorSpec where
  key := "decimal_no_precision"
  issue_type := "DECIMAL without Precision"
  description := fun _ => "Default precision may be wrong"
  fix := "Specify (precision, scale)"
  impact := "Data truncation"
  severity := .medium
  cond := fun clean => reTest true pat_decimal_no_precision clean

/-- Catalog entry `cursor_usage` (`QueryDetector._detect_cursor`). -/
def d_cursor_usage : DetectorSpec where
  key := "cursor_usage"
  issue_type := "Cursor Usage"
  description := fun _ => "Cursors are slow for large sets"
  fix := "Use set-based ops"
  impact := "Performance killer"
  severity := .high
  cond := fun clean => reTest true pat_cursor_usage clean

/-- Catalog entry `while_loop` (`QueryDetector._detect_while_loop`). -/
def d_while_loop : DetectorSpec where
  key := "while_loop"
  issue_type := "WHILE Loop"
  description := fun _ => "RBAR (row-by-agonizing-row) processing"
  fix := "Use set-based"
  impact := "Slow execution"
  severity := .high
  cond := fun clean => reTest true pat_while_loop clean

/-- Catalog entry `dynamic_sql` (`QueryDetector._detect_dynamic_sql`). -/
def d_dynamic_sql : DetectorSpec where
  key := "dynamic_sql"
  issue_type := "Dynamic SQL"
  description := fun _ => "EXEC/EXECUTE risk injection"
  fix := "Use parameterized queries"
  impact := "SQL injection vulnerability"
  severity := .critical
  cond := fun clean => reTest true pat_dynamic_sql clean

/-- Catalog entry `sql_injection_risk` (`QueryDetector._detect_sql_injection_risk`). -/
def d_sql_injection_risk : DetectorSpec where
  key := "sql_injection_risk"
  issue_type := "SQL Injection Risk"
  description := fun _ => "Concatenation in query"
  fix := "Use parameters"
  impact := "Security breach"
  severity := .critical
  cond := fun clean => reTest true pat_sql_injection_risk clean

/-- Catalog entry `grant_all` (`QueryDetector._detect_grant_all`). -/
def d_grant_all : DetectorSpec where
  key := "grant_all"
  issue_type := "GRANT ALL"
  description := fun _ => "Overly broad permissions"
  fix := "Grant specific privileges"
  impact := "Security risk"
  severity := .critical
  cond := fun clean => reTest true pat_grant_all clean

/-- Catalog entry `scalar_subquery_multiple_rows` (`QueryDetector._detect_scalar_subquery_risk`). -/
def d_scalar_subquery_multiple_rows : DetectorSpec where
  key := "scalar_subquery_multiple_rows"
  issue_type := "Scalar Subquery Risk"
  description := fun _ => "Subquery may return multiple rows"
  fix := "Add LIMIT 1"
  impact := "Runtime error"
  severity := .high
  cond := fun clean => reTest true pat_scalar_subquery_multiple_rows clean

/-- Catalog entry `nested_subquery_deep` (`QueryDetector._detect_nested_subquery_deep`). -/
def d_nested_subquery_deep : DetectorSpec where
  key := "nested_subquery_deep"
  issue_type := "Deeply Nested Subquery"
  description := fun _ => "Excessive nesting"
  fix := "Use CTEs"
  impact := "Hard to optimize/maintain"
  severity := .medium
  cond := fun clean => reTest true pat_nested_subquery_deep clean

/-- The detector catalog in the declared, fixed order of
`QueryDetector._get_all_detectors`. -/
def catalog : List DetectorSpec :=
  [d_select_star,
   d_missing_where,
   d_non_sargable,
   d_implicit_conversion,
   d_cartesian_product,
   d_n_plus_1,
   d_correlated_subquery,
   d_or_prevents_index,
   d_offset_pagination,
   d_distinct_unnecessary,
   d_in_clause_large,
   d_like_leading_wildcard,
   d_count_star_exists,
   d_not_in_null,
   d_missing_limit_exists,
   d_floating_point_equals,
   d_null_comparison,
   d_function_on_column,
   d_having_no_aggregates,
   d_union_missing_all,
   d_subquery_select_list,
   d_between_timestamps,
   d_case_in_where,
   d_offset_no_order,
   d_like_no_wildcard,
   d_order_by_ordinal,
   d_ambiguous_order_by,
   d_missing_case_else,
   d_redundant_or,
   d_contradictory_where,
   d_always_true,
   d_always_false,
   d_tautology,
   d_contradiction,
   d_duplicate_join,
   d_redundant_distinct,
   d_redundant_alias,
   d_trivial_subquery,
   d_redundant_cast,
   d_unnecessary_coalesce,
   d_redundant_parentheses,
   d_duplicate_column_select,
   d_insert_no_columns,
   d_insert_select_star,
   d_truncate_no_cascade,
   d_drop_no_if_exists,
   d_lowercase_keyword,
   d_mixed_case_table,
   d_todo_comment,
   d_hardcoded_ip,
   d_hardcoded_url,
   d_hardcoded_password,
   d_magic_number,
   d_hardcoded_date,
   d_api_key_pattern,
   d_email_in_query,
   d_uncommented_complex_query,
   d_trailing_whitespace,
   d_multiple_spaces,
   d_mixed_union,
   d_except_over_not_exists,
   d_intersect_over_join,
   d_now_without_timezone,
   d_date_math_no_interval,
   d_strftime_in_where,
   d_extract_in_where,
   d_in_subquery_over_exists,
   d_exists_over_count,
   d_like_complex_pattern,
   d_regexp_in_where,
   d_json_extract_unindexed,
   d_window_function_no_partition,
   d_cte_unused,
   d_recursive_cte_no_limit,
   d_natural_join,
   d_outer_join_where_nulls,
   d_right_join_usage,
   d_full_outer_join,
   d_select_for_update_no_wait,
   d_varchar_max,
   d_text_vs_varchar,
   d_decimal_no_precision,
   d_cursor_usage,
   d_while_loop,
   d_dynamic_sql,
   d_sql_injection_risk,
   d_grant_all,
   d_scalar_subquery_multiple_rows,
   d_nested_subquery_deep]

/-- Run one detector as the source runs a `_detect_*` method: if the
condition on the clean (normalized) query holds, emit the issue with
the original query text and the given line number attached. -/
def runDetector (d : DetectorSpec) (clean original : String) (ln : Option Nat) :
    Option DetectedIssue :=
  if d.cond clean then
    some { issue_type := d.issue_type, query := original,
           description := d.description clean, fix := d.fix,
           impact := d.impact, severity := d.severity, line_number := ln }
  else none

/-- `QueryDetector.analyze` on a list of queries: each query is
normalized, then every detector of the catalog is run over it in the
declared order (`line_number` is the constant 1 in the source). -/
def analyzeQueries (queries : List String) : List DetectedIssue :=
  queries.flatMap (fun q =>
    catalog.filterMap (fun d => runDetector d (normalizeQuery q) q (some 1)))

/-- `QueryDetector.analyze` on a single query string (the `str` branch
of the source wraps it into a one-element list). -/
def analyze (q : String) : List DetectedIssue :=
  analyzeQueries [q]

/-! ## Universal parser (`parser/universal.py`)

The external `sqlglot` backend is a collaborator (spec section 1): it
is modelled as two oracle parameters, a statement splitter
(`_split_statements`, which itself defers to `sqlglot.parse`) and a
per-statement parser (`sqlglot.parse_one` plus the `_extract_*` /
`_normalize_ast` helpers, absorbed into an `AstFacts` record).  The
control flow of `parse` around the oracles is embedded exactly. -/

/-- `UniversalParser.supported_dialects`. -/
def supportedDialects : List String :=
  ["postgresql", "postgres", "mysql", "mariadb", "sqlite",
   "mssql", "tsql", "oracle", "bigquery", "snowflake",
   "redshift", "clickhouse", "duckdb", "presto", "trino",
   "spark", "databricks", "hive", "teradata"]

/-- `UniversalParser._DIALECT_MAP` (alias → sqlglot name). -/
def dialectMap : List (String × String) :=
  [("postgresql", "postgres"), ("postgres", "postgres"),
   ("mysql", "mysql"), ("mariadb", "mysql"),
   ("sqlite", "sqlite"),
   ("mssql", "tsql"), ("tsql", "tsql"), ("sqlserver", "tsql"),
   ("oracle", "oracle"),
   ("bigquery", "bigquery"),
   ("snowflake", "snowflake"),
   ("redshift", "redshift"),
   ("clickhouse", "clickhouse"),
   ("duckdb", "duckdb"),
   ("presto", "presto"), ("trino", "trino"),
   ("spark", "spark"), ("databricks", "databricks"),
   ("hive", "hive")]

/-- Key lookup in an association list (Python `dict` access order is
irrelevant here because keys are unique). -/
def mapLookup : List (String × String) → String → Option String
  | [], _ => none
  | p :: rest, k => if p.1 = k then some p.2 else mapLookup rest k

/-- Python `str.lower`. -/
def strLower (s : String) : String := ⟨pyLower s.data⟩

/-- `UniversalParser.__init__`: raises `UnsupportedDialectError`
exactly when a dialect is given whose lowercase form is not a key of
`_DIALECT_MAP`. -/
def universalInit (dialect : Option String) : Except String Unit :=
  match dialect with
  | none => .ok ()
  | some d =>
    if (mapLookup dialectMap (strLower d)).isSome then .ok ()
    else .error ("UnsupportedDialectError: " ++ d)

/-- The backtick character (quoted identifiers in two signatures). -/
def btk : Re := .tst (.lit (Char.ofNat 96))

/-- `UniversalParser._DIALECT_PATTERNS`: ranked `(dialect, ci,
signature)` triples, in declaration order.  Sources (in order):
`\$\d+` (I), `::\s*\w+` (I), a backtick-quoted `\w+` (no flags),
`\bTOP\s+\d+` (I), `\[\w+\]` (no flags), `\bROWNUM\b` (I), a
backtick-quoted `[\w-]+\.[\w-]+\.[\w-]+` (no flags), and
`\bFLATTEN\s*\(` (I). -/
def dialectSigs : List (String × Bool × Re) :=
  [("postgres", true, rcat [tch '$', dg1]),
   ("postgres", true, rcat [rstr "::", sp0, wd1]),
   ("mysql", false, rcat [btk, wd1, btk]),
   ("tsql", true, rcat [.wb, rstr "TOP", sp1, dg1]),
   ("tsql", false, rcat [tch '[', wd1, tch ']']),
   ("oracle", true, rcat [.wb, rstr "ROWNUM", .wb]),
   ("bigquery", false,
     rcat [btk, rplus (.tst (.cls false [.word, .ch '-'])), tch '.',
       rplus (.tst (.cls false [.word, .ch '-'])), tch '.',
       rplus (.tst (.cls false [.word, .ch '-'])), btk]),
   ("snowflake", true, rcat [.wb, rstr "FLATTEN", sp0, tch '('])]

/-- Outcome of `pattern.search(sql)` for every signature, in order. -/
def sigFlags (sql : String) : List (String × Bool) :=
  dialectSigs.map (fun t => (t.1, reTest t.2.1 t.2.2 sql))

/-- `dialect_scores[dialect] = dialect_scores.get(dialect, 0) + 1`:
increment in place, or append a fresh key (Python dict insertion
order). -/
def bump (d : String) : List (String × Nat) → List (String × Nat)
  | [] => [(d, 1)]
  | (k, n) :: rest => if k = d then (k, n + 1) :: rest else (k, n) :: bump d rest

/-- The score dictionary built by the loop of `detect_dialect`. -/
def scoresOf (flags : List (String × Bool)) : List (String × Nat) :=
  flags.foldl (fun acc p => if p.2 then bump p.1 acc else acc) []

/-- Python `max(scores, key=scores.get)`: the first key (in dict
iteration order) attaining the maximal value; `none` on an empty
dictionary. -/
def pyMaxByVal (scores : List (String × Nat)) : Option String :=
  (scores.foldl (fun best p =>
    match best with
    | none => some p
    | some q => if p.2 > q.2 then some p else some q) none).map (fun p => p.1)

/-- `UniversalParser.detect_dialect`. -/
def detectDialect (sql : String) : Option String :=
  let sc := scoresOf (sigFlags sql)
  if sc.isEmpty then none else pyMaxByVal sc

/-- Modelled from the spec: `Location` of `slowql/core/models.py`,
which is not under `src/`; spec section 3 — "statement index, 1-based
line, 1-based column, optional source file". -/
structure Location where
  line : Nat
  column : Nat
  file : Option String
  query_index : Nat
deriving Repr, DecidableEq

/-- Modelled from the spec: the external parser's per-statement output
(spec section 6 — "`parse(statement_text, dialect) -> {tables,
columns, statement_kind, normalized_text} | ParseFailure`"); in the
source these are the AST plus the `_extract_tables_from_ast`,
`_extract_columns_from_ast`, `_get_query_type_from_ast`,
`_normalize_ast` views of it. -/
structure AstFacts where
  tables : List String
  columns : List String
  queryType : Option String
  normalized : String
deriving Repr, DecidableEq

/-- Modelled from the spec: `Query` of `slowql/core/models.py`, which
is not under `src/`; spec section 3 "Statement" — raw and normalized
text, dialect, location, tables, columns (insertion order), statement
kind.  The opaque `ast` handle is omitted. -/
structure Query where
  raw : String
  normalized : String
  dialect : String
  location : Location
  tables : List String
  columns : List String
  query_type : Option String
deriving Repr, DecidableEq

/-- The statement loop of `UniversalParser.parse`: `idx` enumerates
all split statements (including the ones skipped as empty); a
statement whose `strip()` is empty is skipped; a parser failure on any
statement raises `ParseError("Failed to parse SQL")`, aborting the
whole call — queries accumulated for earlier statements are discarded
by the exception. -/
def parseLoop (parseOne : String → Except String AstFacts)
    (dialect : Option String) (filePath : Option String) :
    Nat → List (String × Nat × Nat) → Except String (List Query)
  | _, [] => .ok []
  | idx, (stmt, lineOff, colOff) :: rest =>
    if (⟨pyStrip stmt.data⟩ : String) = "" then
      parseLoop parseOne dialect filePath (idx + 1) rest
    else
      match parseOne stmt with
      | .ok facts =>
        let q : Query :=
          { raw := stmt, normalized := facts.normalized,
            dialect := dialect.getD "unknown",
            location := { line := lineOff + 1, column := colOff + 1,
                          file := filePath, query_index := idx },
            tables := facts.tables, columns := facts.columns,
            query_type := facts.queryType }
        match parseLoop parseOne dialect filePath (idx + 1) rest with
        | .ok qs => .ok (q :: qs)
        | .error e => .error e
      | .error _ => .error "Failed to parse SQL"

/-- `UniversalParser.parse`: effective dialect is the argument, else
the constructor dialect, else `detect_dialect(sql)`; then the
statement loop over the split statements. -/
def universalParse (splitS : String → List (String × Nat × Nat))
    (parseOne : String → Except String AstFacts)
    (selfDialect dialect filePath : Option String) (sql : String) :
    Except String (List Query) :=
  let eff :=
    match dialect with
    | some d => some d
    | none => match selfDialect with
      | some d => some d
      | none => detectDialect sql
  parseLoop parseOne eff filePath 0 (splitS sql)

/-- `UniversalParser.parse_single`: zero statements or more than one
statement is a hard `ParseError`. -/
def parseSingle (splitS : String → List (String × Nat × Nat))
    (parseOne : String → Except String AstFacts)
    (selfDialect dialect filePath : Option String) (sql : String) :
    Except String Query :=
  match universalParse splitS parseOne selfDialect dialect filePath sql with
  | .error e => .error e
  | .ok [] => .error "No SQL statement found"
  | .ok [q] => .ok q
  | .ok (_ :: _ :: _) => .error "Expected single statement"

/-! ## Rule registry (`rules/registery.py`)

The `Rule` base class, `Dimension`, `Category` and `Severity`
enumerations live in modules not under `src/`
(`slowql/rules/base.py`, `slowql/core/models.py`), so they are
modelled from the spec; the registry operations themselves are
embedded from `registery.py`.  The Python `dict`s keyed by enum
members (`{d: [] for d in Dimension}` etc., every key present from
initialization) are modelled as total functions into `List String`;
the primary `dict[str, Rule]` is an insertion-ordered association
list with unique keys. -/

/-- Modelled from the spec: `Dimension` — "one of a closed set
{SECURITY, PERFORMANCE, RELIABILITY, COMPLIANCE, QUALITY, COST}"
(spec section 3). -/
inductive Dimension where
  | security
  | performance
  | reliability
  | compliance
  | quality
  | cost
deriving Repr, DecidableEq

/-- Modelled from the spec: `Severity` of the rule taxonomy — "one of
{LOW, MEDIUM, HIGH, CRITICAL}" (spec section 3). -/
inductive Severity where
  | low
  | medium
  | high
  | critical
deriving Repr, DecidableEq

/-- Modelled from the spec: `Category`, an "optional finer-grained tag
within a dimension" from a closed set the spec leaves unnamed; the
registry logic only compares categories for equality, so a string
stands in for the enumeration. -/
def Category := String
deriving instance Repr, DecidableEq for Category

/-- Modelled from the spec: the fields of `Rule` that the registry's
register/unregister/index logic reads — "`id` (unique, required),
`severity`, `dimension`, `category` (optional)" (spec section 3; the
`name`, `description` and `enabled` fields play no part in the
indexing claims and are omitted). -/
structure Rule where
  id : String
  dimension : Dimension
  category : Option Category
  severity : Severity
deriving Repr, DecidableEq

/-- The four maps of `RuleRegistry.__init__`. -/
structure RuleRegistry where
  rules : List (String × Rule)
  byDimension : Dimension → List String
  byCategory : Category → List String
  bySeverity : Severity → List String

/-- A fresh registry: `{}` and empty index lists for every key. -/
def emptyRegistry : RuleRegistry :=
  { rules := [], byDimension := fun _ => [],
    byCategory := fun _ => [], bySeverity := fun _ => [] }

/-- `self._rules.get(rule_id)`. -/
def findRule : List (String × Rule) → String → Option Rule
  | [], _ => none
  | p :: rest, k => if p.1 = k then some p.2 else findRule rest k

/-- `self._rules[rule_id] = rule` (update in place, or append a fresh
key — Python dict insertion order). -/
def dictInsert (k : String) (v : Rule) : List (String × Rule) → List (String × Rule)
  | [] => [(k, v)]
  | (k0, v0) :: rest =>
    if k0 = k then (k0, v) :: rest else (k0, v0) :: dictInsert k v rest

/-- `self._rules.pop(rule_id)` (drop the entry). -/
def dictRemove (k : String) : List (String × Rule) → List (String × Rule)
  | [] => []
  | (k0, v0) :: rest =>
    if k0 = k then rest else (k0, v0) :: dictRemove k rest

/-- Pointwise update of an index map at one key. -/
def updAt {K : Type} [DecidableEq K] (f : K → List String) (k : K)
    (g : List String → List String) : K → List String :=
  fun x => if x = k then g (f x) else f x

/-- `RuleRegistry._remove_from_indices`: look the rule up; if present,
remove its id (first occurrence, guarded as in `list.remove`) from the
dimension, category (when set) and severity index lists. -/
def removeFromIndices (ruleId : String) (st : RuleRegistry) : RuleRegistry :=
  match findRule st.rules ruleId with
  | none => st
  | some rule =>
    let st := { st with byDimension := updAt st.byDimension rule.dimension (fun l => l.erase ruleId) }
    let st :=
      match rule.category with
      | some c => { st with byCategory := updAt st.byCategory c (fun l => l.erase ruleId) }
      | none => st
    { st with bySeverity := updAt st.bySeverity rule.severity (fun l => l.erase ruleId) }

/-- `RuleRegistry.register`: empty id is an error; a present id
without `replace` is a "duplicate id" error; otherwise old index
entries are purged when replacing, the rule is stored, and its id is
appended to the dimension, category (when set) and severity index
lists.  Both error paths raise before any mutation, so the error
cases return no new state. -/
def register (rule : Rule) (replace : Bool) (st : RuleRegistry) :
    Except String RuleRegistry :=
  if rule.id = "" then .error "Rule must have an ID"
  else if (findRule st.rules rule.id).isSome && !replace then
    .error ("Rule \x27" ++ rule.id ++ "\x27 is already registered. Use replace=True to override.")
  else
    let st := if (findRule st.rules rule.id).isSome then removeFromIndices rule.id st else st
    let st := { st with rules := dictInsert rule.id rule st.rules }
    let st := { st with byDimension := updAt st.byDimension rule.dimension (fun l => l ++ [rule.id]) }
    let st :=
      match rule.category with
      | some c => { st with byCategory := updAt st.byCategory c (fun l => l ++ [rule.id]) }
      | none => st
    .ok { st with bySeverity := updAt st.bySeverity rule.severity (fun l => l ++ [rule.id]) }

/-- `RuleRegistry.unregister`: absent id returns `none` and leaves the
state untouched; otherwise the id is purged from all indices and
popped from the primary map, returning the removed rule. -/
def unregister (ruleId : String) (st : RuleRegistry) :
    Option Rule × RuleRegistry :=
  match findRule st.rules ruleId with
  | none => (none, st)
  | some rule =>
    let st := removeFromIndices ruleId st
    (some rule, { st with rules := dictRemove ruleId st.rules })

/-! ## Claim C1, C9: structure of `analyze` -/

theorem filterMap_map_sublist {A B C : Type} (l : List A) (f : A → Option B)
    (g : B → C) (h : A → C) (hc : ∀ a ∈ l, ∀ b, f a = some b → g b = h a) :
    ((l.filterMap f).map g).Sublist (l.map h) := by
  induction l with
  | nil => simp
  | cons a rest ih =>
    have hrest := ih (fun x hx b hb => hc x (List.mem_cons_of_mem a hx) b hb)
    cases hf : f a with
    | none =>
      simp only [List.filterMap_cons, hf, List.map_cons]
      exact hrest.cons (h a)
    | some b =>
      simp only [List.filterMap_cons, hf, List.map_cons]
      rw [hc a (List.mem_cons_self a rest) b hf]
      exact hrest.cons₂ (h a)

theorem runDetector_issue_type (d : DetectorSpec) (clean original : String)
    (ln : Option Nat) (i : DetectedIssue)
    (h : runDetector d clean original ln = some i) : i.issue_type = d.issue_type := by
  unfold runDetector at h
  split at h
  · cases h; rfl
  · cases h

theorem runDetector_query (d : DetectorSpec) (clean original : String)
    (ln : Option Nat) (i : DetectedIssue)
    (h : runDetector d clean original ln = some i) : i.query = original := by
  unfold runDetector at h
  split at h
  · cases h; rfl
  · cases h

theorem filterMap_run_issue_types (l : List DetectorSpec) (clean q : String) :
    ((l.filterMap (fun d => runDetector d clean q (some 1))).map DetectedIssue.issue_type)
      = ((l.filter (fun d => d.cond clean)).map DetectorSpec.issue_type) := by
  induction l with
  | nil => rfl
  | cons d rest ih =>
    simp only [List.filterMap_cons, List.filter_cons]
    cases hc : d.cond clean with
    | false =>
      rw [show runDetector d clean q (some 1) = none from by simp [runDetector, hc]]
      simpa [hc] using ih
    | true =>
      rw [show runDetector d clean q (some 1) = some
        { issue_type := d.issue_type, query := q, description := d.description clean,
          fix := d.fix, impact := d.impact, severity := d.severity,
          line_number := some 1 } from by simp [runDetector, hc]]
      simpa [hc] using ih

/-- C1: for every SQL text `s`, two calls to `QueryDetector.analyze(s)`
produce identical ordered finding lists, and the sequence of issue
types is a subsequence of the catalog's declared fixed order —
iteration is over the catalog list itself, never a
data-structure-dependent order. -/
theorem analyze_deterministic_fixed_order (s : String) :
    analyze s = analyze s ∧
    ((analyze s).map DetectedIssue.issue_type).Sublist
      (catalog.map DetectorSpec.issue_type) := by
  refine ⟨rfl, ?_⟩
  show ((analyzeQueries [s]).map DetectedIssue.issue_type).Sublist _
  unfold analyzeQueries
  simp only [List.flatMap_cons, List.flatMap_nil, List.append_nil]
  exact filterMap_map_sublist catalog _ _ _
    (fun d _ i hi => runDetector_issue_type d _ s (some 1) i hi)

/-- C9: every finding emitted by `analyze` carries the original
(non-normalized) statement text in its `query` field, while the firing
pattern (hence the issue-type list) depends on the statement only
through its normalized text. -/
theorem findings_carry_original_query :
    (∀ (qs : List String) (i : DetectedIssue), i ∈ analyzeQueries qs → i.query ∈ qs) ∧
    (∀ q₁ q₂ : String, normalizeQuery q₁ = normalizeQuery q₂ →
      (analyze q₁).map DetectedIssue.issue_type = (analyze q₂).map DetectedIssue.issue_type) := by
  constructor
  · intro qs i hi
    unfold analyzeQueries at hi
    rcases List.mem_flatMap.mp hi with ⟨q, hq, hmem⟩
    rcases List.mem_filterMap.mp hmem with ⟨d, _, hrun⟩
    rw [runDetector_query d _ q (some 1) i hrun]
    exact hq
  · intro q₁ q₂ hnorm
    have e : ∀ q : String, (analyze q).map DetectedIssue.issue_type =
        (catalog.filter (fun d => d.cond (normalizeQuery q))).map DetectorSpec.issue_type := by
      intro q
      show ((analyzeQueries [q]).map DetectedIssue.issue_type) = _
      unfold analyzeQueries
      simp only [List.flatMap_cons, List.flatMap_nil, List.append_nil]
      exact filterMap_run_issue_types catalog _ q
    rw [e, e, hnorm]

/-- Witness for C9 at concrete inputs: the lowercase-keyword finding
on `"SELECT 1"` carries the original text, and two texts with equal
normal forms produce the same issue-type list. -/
theorem findings_carry_original_query_witness :
    (({ issue_type := "Lowercase Keywords", query := "SELECT 1",
        description := "SQL keywords in lowercase",
        fix := "Use uppercase for keywords",
        impact := "Style inconsistency", severity := .low,
        line_number := some 1 } : DetectedIssue).query ∈ ["SELECT 1"]) ∧
    ((analyze "SELECT 1").map DetectedIssue.issue_type =
      (analyze " SELECT    1  ").map DetectedIssue.issue_type) :=
  ⟨findings_carry_original_query.1 ["SELECT 1"] _ (by decide),
   findings_carry_original_query.2 "SELECT 1" " SELECT    1  " (by decide)⟩

/-! ## Claim C3: findings on `"SELECT * FROM users"` -/

/-- C3 (the code at the claimed input): analyzing
`"SELECT * FROM users"` produces three findings, not one — besides
`SELECT * Usage` (MEDIUM), the `lowercase_keyword` and
`mixed_case_table` detectors also fire because their patterns are
compiled with `re.IGNORECASE`, so they match the upper-case `SELECT`
and the all-lower-case table name as well. -/
theorem analyze_select_star_three_findings :
    (analyze "SELECT * FROM users").map (fun i => (i.issue_type, i.severity)) =
      [("SELECT * Usage", IssueSeverity.medium),
       ("Lowercase Keywords", IssueSeverity.low),
       ("Mixed Case Identifiers", IssueSeverity.low)] := by decide

/-! ## Claim C5: threshold boundaries -/

/-- A query whose IN list has exactly `n` one-character values. -/
def inListQuery (n : Nat) : String :=
  "IN (" ++ String.intercalate "," (List.replicate n "1") ++ ")"

/-- C5: `OFFSET 1000` does not produce the Large OFFSET Pagination
finding while `OFFSET 1001` does, and an IN list with exactly 50
values does not produce the Massive IN List finding while one with 51
values does. -/
theorem threshold_boundaries :
    ("Large OFFSET Pagination" ∉ (analyze "OFFSET 1000").map DetectedIssue.issue_type) ∧
    ("Large OFFSET Pagination" ∈ (analyze "OFFSET 1001").map DetectedIssue.issue_type) ∧
    ("Massive IN List" ∉ (analyze (inListQuery 50)).map DetectedIssue.issue_type) ∧
    ("Massive IN List" ∈ (analyze (inListQuery 51)).map DetectedIssue.issue_type) := by
  refine ⟨by decide, by decide, by decide, by decide⟩

/-! ## Claim C2: a parse failure aborts the whole batch -/

/-- A parser oracle that fails on the statement `"BAD"` and parses
everything else (standing in for `sqlglot.parse_one` raising
`ParseError` on one malformed statement). -/
def oracleFailBad : String → Except String AstFacts :=
  fun s => if s = "BAD" then .error "ParseError" else .ok ⟨[], [], none, s⟩

/-- A splitter oracle producing a three-statement batch whose middle
statement is the malformed `"BAD"`. -/
def splitThree : String → List (String × Nat × Nat) :=
  fun _ => [("SELECT 1", 0, 0), ("BAD", 0, 10), ("SELECT 2", 0, 15)]

/-- C2 (code behaviour at the failing input): in a three-statement
batch whose middle statement fails to parse, `UniversalParser.parse`
raises `ParseError` for the whole call — the two well-formed
statements, which the oracle parses fine on their own, yield no
queries at all; the failure is not recorded per-statement. -/
theorem parse_aborts_batch_on_single_failure :
    (oracleFailBad "SELECT 1").isOk = true ∧
    (oracleFailBad "SELECT 2").isOk = true ∧
    universalParse splitThree oracleFailBad none none none "SELECT 1; BAD; SELECT 2"
      = .error "Failed to parse SQL" :=
  ⟨rfl, rfl, rfl⟩

/-! ## Claim C10: the declared dialect list versus the dialect map -/

/-- C10 (code behaviour at the failing input): `"teradata"` is listed
in `supported_dialects`, yet constructing `UniversalParser` with it
raises `UnsupportedDialectError` because `_DIALECT_MAP` has no
`"teradata"` key; every other listed dialect constructs fine. -/
theorem teradata_listed_but_init_raises :
    "teradata" ∈ supportedDialects ∧
    universalInit (some "teradata") = .error "UnsupportedDialectError: teradata" ∧
    ∀ d ∈ supportedDialects, d ≠ "teradata" → (universalInit (some d)).isOk = true := by
  refine ⟨by decide, rfl, by decide⟩

/-! ## Claim C8: `detect_dialect` against the spec's description -/

/-- Number of signatures of dialect `d` that matched. -/
def sigScore (flags : List (String × Bool)) (d : String) : Nat :=
  (flags.filter (fun p => p.1 = d && p.2)).length

/-- Index of the first matching signature of dialect `d` (list length
when none matched). -/
def firstMatchIdx (flags : List (String × Bool)) (d : String) : Nat :=
  flags.findIdx (fun p => p.1 = d && p.2)

/-- The score/choice pipeline of `detect_dialect` applied to the
signature-match outcomes. -/
def detectFromFlags (flags : List (String × Bool)) : Option String :=
  let sc := scoresOf flags
  if sc.isEmpty then none else pyMaxByVal sc

/-- Acceptance test transcribing the spec's description of
`detect_dialect` ("scores every dialect by counting signature matches;
returns the dialect with the highest score, ties broken by signature
list order — the dialect whose matching signature is registered
earlier wins; returns none if no signature matches"): a `none` result
demands that no signature matched; a `some w` result demands that some
signature of `w` matched, that no dialect scores higher than `w`, and
that any other dialect with an equal score has its first matching
signature registered strictly later than `w`'s. -/
def dialectSpecCheck (flags : List (String × Bool)) : Option String → Bool
  | none => flags.all (fun p => !p.2)
  | some w =>
    decide ((w, true) ∈ flags) &&
    flags.all (fun p => sigScore flags p.1 ≤ sigScore flags w) &&
    flags.all (fun p =>
      p.1 = w || !(sigScore flags p.1 = sigScore flags w) ||
      decide (firstMatchIdx flags w < firstMatchIdx flags p.1))

/-- C8: for every SQL text, the result of
`UniversalParser.detect_dialect` satisfies the spec's
characterization: highest match count wins, ties go to the dialect
whose matching signature is registered earlier, and no match at all
yields `none`. -/
theorem detect_dialect_matches_spec (sql : String) :
    dialectSpecCheck (sigFlags sql) (detectDialect sql) = true := by
  have bridge : ∀ b1 b2 b3 b4 b5 b6 b7 b8 : Bool,
      dialectSpecCheck
        [("postgres", b1), ("postgres", b2), ("mysql", b3), ("tsql", b4),
         ("tsql", b5), ("oracle", b6), ("bigquery", b7), ("snowflake", b8)]
        (detectFromFlags
          [("postgres", b1), ("postgres", b2), ("mysql", b3), ("tsql", b4),
           ("tsql", b5), ("oracle", b6), ("bigquery", b7), ("snowflake", b8)]) = true := by
    decide
  exact bridge _ _ _ _ _ _ _ _


/-! ## Claims C6, C7: registry index consistency -/

/-- Keys of the primary map, in insertion order. -/
def keysOf (l : List (String × Rule)) : List String :=
  l.map (fun p => p.1)

theorem keysOf_cons (p : String × Rule) (rest : List (String × Rule)) :
    keysOf (p :: rest) = p.1 :: keysOf rest := rfl

theorem findRule_eq_none_iff (l : List (String × Rule)) (k : String) :
    findRule l k = none ↔ k ∉ keysOf l := by
  induction l with
  | nil => simp [findRule, keysOf]
  | cons p rest ih =>
    unfold findRule
    by_cases h : p.1 = k
    · simp [h, keysOf]
    · rw [if_neg h, ih, keysOf_cons]
      constructor
      · intro hk hm
        rcases List.mem_cons.mp hm with hm | hm
        · exact h hm.symm
        · exact hk hm
      · intro hk hm
        exact hk (List.mem_cons_of_mem _ hm)

theorem findRule_mem (l : List (String × Rule)) (k : String) (v : Rule)
    (h : findRule l k = some v) : (k, v) ∈ l := by
  induction l with
  | nil => cases h
  | cons p rest ih =>
    unfold findRule at h
    by_cases h0 : p.1 = k
    · rw [if_pos h0] at h
      obtain ⟨a, b⟩ := p
      cases h
      cases h0
      exact List.mem_cons_self _ _
    · rw [if_neg h0] at h
      exact List.mem_cons_of_mem p (ih h)

theorem findRule_isSome_iff (l : List (String × Rule)) (k : String) :
    (findRule l k).isSome = true ↔ k ∈ keysOf l := by
  cases hf : findRule l k with
  | none => simpa using (findRule_eq_none_iff l k).mp hf
  | some v =>
    simp only [Option.isSome_some, true_iff]
    exact List.mem_map.mpr ⟨(k, v), findRule_mem l k v hf, rfl⟩

theorem findRule_dictInsert (l : List (String × Rule)) (k : String) (v : Rule)
    (k' : String) :
    findRule (dictInsert k v l) k' = if k' = k then some v else findRule l k' := by
  induction l with
  | nil =>
    show (if k = k' then some v else none) = _
    by_cases h : k' = k
    · rw [if_pos h, if_pos h.symm]
    · rw [if_neg h, if_neg (fun e => h e.symm)]
      rfl
  | cons p rest ih =>
    unfold dictInsert
    by_cases h0 : p.1 = k
    · rw [if_pos h0]
      show (if p.1 = k' then some v else findRule rest k') = _
      by_cases h' : k' = k
      · rw [if_pos (h0.trans h'.symm), if_pos h']
      · have hp : ¬ p.1 = k' := by rw [h0]; exact fun e => h' e.symm
        rw [if_neg hp, if_neg h']
        show _ = if p.1 = k' then some p.2 else findRule rest k'
        rw [if_neg hp]
    · rw [if_neg h0]
      show (if p.1 = k' then some p.2 else findRule (dictInsert k v rest) k') = _
      by_cases h1 : p.1 = k'
      · have hk : ¬ k' = k := fun e => h0 (h1.trans e)
        rw [if_pos h1, if_neg hk]
        show _ = if p.1 = k' then some p.2 else findRule rest k'
        rw [if_pos h1]
      · rw [if_neg h1, ih]
        by_cases h' : k' = k
        · rw [if_pos h', if_pos h']
        · rw [if_neg h', if_neg h']
          show _ = if p.1 = k' then some p.2 else findRule rest k'
          rw [if_neg h1]

theorem keysOf_dictInsert_mem (l : List (String × Rule)) (k : String) (v : Rule)
    (h : k ∈ keysOf l) : keysOf (dictInsert k v l) = keysOf l := by
  induction l with
  | nil => simp [keysOf] at h
  | cons p rest ih =>
    unfold dictInsert
    by_cases h0 : p.1 = k
    · rw [if_pos h0, keysOf_cons, keysOf_cons]
    · rw [if_neg h0, keysOf_cons, keysOf_cons]
      have h' : k ∈ keysOf rest := by
        rw [keysOf_cons] at h
        rcases List.mem_cons.mp h with h | h
        · exact absurd h.symm h0
        · exact h
      rw [ih h']

theorem keysOf_dictInsert_notMem (l : List (String × Rule)) (k : String) (v : Rule)
    (h : k ∉ keysOf l) : keysOf (dictInsert k v l) = keysOf l ++ [k] := by
  induction l with
  | nil => simp [dictInsert, keysOf]
  | cons p rest ih =>
    unfold dictInsert
    by_cases h0 : p.1 = k
    · exact absurd (by rw [keysOf_cons, h0]; exact List.mem_cons_self _ _) h
    · rw [if_neg h0, keysOf_cons, keysOf_cons]
      have h' : k ∉ keysOf rest := by
        intro hm
        exact h (by rw [keysOf_cons]; exact List.mem_cons_of_mem _ hm)
      rw [ih h']
      rfl

theorem mem_dictInsert (l : List (String × Rule)) (k : String) (v : Rule)
    (p : String × Rule) (h : p ∈ dictInsert k v l) : p = (k, v) ∨ p ∈ l := by
  induction l with
  | nil => simpa [dictInsert] using h
  | cons q rest ih =>
    unfold dictInsert at h
    by_cases h0 : q.1 = k
    · rw [if_pos h0] at h
      rcases List.mem_cons.mp h with h | h
      · left; rw [h, h0]
      · right; exact List.mem_cons_of_mem q h
    · rw [if_neg h0] at h
      rcases List.mem_cons.mp h with h | h
      · right; exact h ▸ List.mem_cons_self q rest
      · rcases ih h with h | h
        · exact Or.inl h
        · exact Or.inr (List.mem_cons_of_mem q h)

theorem keysOf_dictRemove (l : List (String × Rule)) (k : String) :
    keysOf (dictRemove k l) = (keysOf l).erase k := by
  induction l with
  | nil => simp [dictRemove, keysOf]
  | cons p rest ih =>
    unfold dictRemove
    by_cases h0 : p.1 = k
    · rw [if_pos h0, keysOf_cons, h0, List.erase_cons_head]
    · rw [if_neg h0, keysOf_cons, keysOf_cons, ih,
        List.erase_cons_tail (by simpa using h0)]

theorem mem_dictRemove (l : List (String × Rule)) (k : String)
    (p : String × Rule) (h : p ∈ dictRemove k l) : p ∈ l := by
  induction l with
  | nil => simpa [dictRemove] using h
  | cons q rest ih =>
    unfold dictRemove at h
    by_cases h0 : q.1 = k
    · rw [if_pos h0] at h
      exact List.mem_cons_of_mem q h
    · rw [if_neg h0] at h
      rcases List.mem_cons.mp h with h | h
      · exact h ▸ List.mem_cons_self q rest
      · exact List.mem_cons_of_mem q (ih h)

theorem findRule_dictRemove (l : List (String × Rule)) (k k' : String)
    (hnd : (keysOf l).Nodup) :
    findRule (dictRemove k l) k' = if k' = k then none else findRule l k' := by
  by_cases h : k' = k
  · subst h
    rw [if_pos rfl, findRule_eq_none_iff, keysOf_dictRemove]
    exact hnd.not_mem_erase
  · rw [if_neg h]
    induction l with
    | nil => rfl
    | cons p rest ih =>
      have hnd' : (keysOf rest).Nodup := by
        rw [keysOf_cons, List.nodup_cons] at hnd
        exact hnd.2
      unfold dictRemove
      by_cases h0 : p.1 = k
      · rw [if_pos h0]
        show _ = if p.1 = k' then some p.2 else findRule rest k'
        rw [if_neg (by rw [h0]; exact fun e => h e.symm)]
      · rw [if_neg h0]
        show (if p.1 = k' then some p.2 else findRule (dictRemove k rest) k')
          = if p.1 = k' then some p.2 else findRule rest k'
        by_cases h1 : p.1 = k'
        · rw [if_pos h1, if_pos h1]
        · rw [if_neg h1, if_neg h1, ih hnd']

/-- Exactly-one-occurrence specification for an id across the buckets
of one secondary index: 1 in the bucket named by `oc` (when set),
0 everywhere else. -/
def onebkt {K : Type} [DecidableEq K] (oc : Option K) (x : K) : Nat :=
  if oc = some x then 1 else 0

/-- Append an id to the bucket named by `oc`, when set (the
index-update step of `register`; the dimension and severity indices
use it with `some`, the category index with the rule's optional
category). -/
def optAppendAt {K : Type} [DecidableEq K] (f : K → List String) (oc : Option K)
    (rid : String) : K → List String :=
  match oc with
  | some k => updAt f k (fun l => l ++ [rid])
  | none => f

/-- Remove an id (first occurrence) from the bucket named by `oc`,
when set (the index-purge step of `_remove_from_indices`). -/
def optEraseAt {K : Type} [DecidableEq K] (f : K → List String) (oc : Option K)
    (rid : String) : K → List String :=
  match oc with
  | some k => updAt f k (fun l => l.erase rid)
  | none => f

theorem count_append_one (l : List String) (a b : String) :
    (l ++ [a]).count b = l.count b + (if b = a then 1 else 0) := by
  rw [List.count_append]
  by_cases h : b = a
  · subst h
    simp [List.count_singleton]
  · simp [List.count_cons, h]

theorem optErase_count_self {K : Type} [DecidableEq K] (f : K → List String)
    (oc : Option K) (rid : String) (pre : ∀ x, (f x).count rid = onebkt oc x) :
    ∀ x, ((optEraseAt f oc rid) x).count rid = 0 := by
  intro x
  cases oc with
  | none => simpa [onebkt] using pre x
  | some k =>
    simp only [optEraseAt, updAt]
    by_cases h : x = k
    · subst h
      rw [if_pos rfl, List.count_erase_self, pre x]
      simp [onebkt]
    · rw [if_neg h]
      have := pre x
      rw [this, onebkt, if_neg (by intro e; cases e; exact h rfl)]

theorem optErase_count_other {K : Type} [DecidableEq K] (f : K → List String)
    (oc : Option K) (rid rid' : String) (hne : rid' ≠ rid) :
    ∀ x, ((optEraseAt f oc rid) x).count rid' = (f x).count rid' := by
  intro x
  cases oc with
  | none => rfl
  | some k =>
    simp only [optEraseAt, updAt]
    by_cases h : x = k
    · subst h
      rw [if_pos rfl, List.count_erase_of_ne hne]
    · rw [if_neg h]

theorem optAppend_count_self {K : Type} [DecidableEq K] (f : K → List String)
    (oc : Option K) (rid : String) (pre : ∀ x, (f x).count rid = 0) :
    ∀ x, ((optAppendAt f oc rid) x).count rid = onebkt oc x := by
  intro x
  cases oc with
  | none => simpa [onebkt] using pre x
  | some k =>
    simp only [optAppendAt, updAt]
    by_cases h : x = k
    · subst h
      rw [if_pos rfl, count_append_one, pre x, if_pos rfl, onebkt, if_pos rfl]
    · rw [if_neg h, pre x, onebkt, if_neg (by intro e; cases e; exact h rfl)]

theorem optAppend_count_other {K : Type} [DecidableEq K] (f : K → List String)
    (oc : Option K) (rid rid' : String) (hne : rid' ≠ rid) :
    ∀ x, ((optAppendAt f oc rid) x).count rid' = (f x).count rid' := by
  intro x
  cases oc with
  | none => rfl
  | some k =>
    simp only [optAppendAt, updAt]
    by_cases h : x = k
    · subst h
      rw [if_pos rfl, count_append_one, if_neg hne]
      rfl
    · rw [if_neg h]

theorem optErase_mem {K : Type} [DecidableEq K] (f : K → List String)
    (oc : Option K) (rid rid' : String) (x : K)
    (h : rid' ∈ (optEraseAt f oc rid) x) : rid' ∈ f x := by
  cases oc with
  | none => exact h
  | some k =>
    simp only [optEraseAt, updAt] at h
    by_cases hx : x = k
    · rw [if_pos hx] at h
      cases hx
      exact List.mem_of_mem_erase h
    · rwa [if_neg hx] at h

theorem optAppend_mem {K : Type} [DecidableEq K] (f : K → List String)
    (oc : Option K) (rid rid' : String) (x : K)
    (h : rid' ∈ (optAppendAt f oc rid) x) : rid' ∈ f x ∨ rid' = rid := by
  cases oc with
  | none => exact Or.inl h
  | some k =>
    simp only [optAppendAt, updAt] at h
    by_cases hx : x = k
    · rw [if_pos hx] at h
      cases hx
      rcases List.mem_append.mp h with h | h
      · exact Or.inl h
      · exact Or.inr (by simpa using h)
    · rw [if_neg hx] at h
      exact Or.inl h

/-- `_remove_from_indices` written with the uniform bucket
operations. -/
theorem removeFromIndices_eq (ruleId : String) (st : RuleRegistry) :
    removeFromIndices ruleId st =
      match findRule st.rules ruleId with
      | none => st
      | some old =>
        { st with
          byDimension := optEraseAt st.byDimension (some old.dimension) ruleId,
          byCategory := optEraseAt st.byCategory old.category ruleId,
          bySeverity := optEraseAt st.bySeverity (some old.severity) ruleId } := by
  unfold removeFromIndices
  cases hf : findRule st.rules ruleId with
  | none => rfl
  | some old =>
    cases hoc : old.category with
    | none => simp only [optEraseAt, hoc]
    | some c => simp only [optEraseAt, hoc]

/-- The state produced by a successful `register` call. -/
def registerPost (rule : Rule) (st : RuleRegistry) : RuleRegistry :=
  let st1 := if (findRule st.rules rule.id).isSome then removeFromIndices rule.id st else st
  { rules := dictInsert rule.id rule st1.rules,
    byDimension := optAppendAt st1.byDimension (some rule.dimension) rule.id,
    byCategory := optAppendAt st1.byCategory rule.category rule.id,
    bySeverity := optAppendAt st1.bySeverity (some rule.severity) rule.id }

theorem register_ok_eq (rule : Rule) (replace : Bool) (st st' : RuleRegistry)
    (h : register rule replace st = .ok st') : st' = registerPost rule st := by
  unfold register at h
  split at h
  · cases h
  · split at h
    · cases h
    · cases hc : rule.category with
      | none =>
        rw [hc] at h
        cases h
        unfold registerPost
        simp only [optAppendAt, hc]
      | some c =>
        rw [hc] at h
        cases h
        unfold registerPost
        simp only [optAppendAt, hc]

theorem nodup_append_one (l : List String) (a : String) (h1 : l.Nodup)
    (h2 : a ∉ l) : (l ++ [a]).Nodup := by
  induction l with
  | nil => simp
  | cons b rest ih =>
    rw [List.nodup_cons] at h1
    rw [List.cons_append, List.nodup_cons]
    refine ⟨?_, ih h1.2 (fun hm => h2 (List.mem_cons_of_mem b hm))⟩
    intro hm
    rcases List.mem_append.mp hm with hm | hm
    · exact h1.1 hm
    · cases List.mem_singleton.mp hm
      exact h2 (List.mem_cons_self _ _)

theorem findRule_dictInsert_isSome (l : List (String × Rule)) (k : String) (v : Rule)
    (k' : String) (h : (findRule l k').isSome = true) :
    (findRule (dictInsert k v l) k').isSome = true := by
  rw [findRule_dictInsert]
  by_cases h' : k' = k
  · rw [if_pos h']; rfl
  · rwa [if_neg h']

/-- The registry consistency invariant (spec section 3, "Registry
indices"): primary keys are unique, non-empty and equal to the stored
rule's id; every registered id occurs exactly once in the secondary
index bucket matching its rule's dimension / category / severity and
in no other bucket; and every id occurring anywhere in a secondary
index is registered in the primary map. -/
structure Inv (st : RuleRegistry) : Prop where
  nodup : (keysOf st.rules).Nodup
  keyId : ∀ p ∈ st.rules, p.1 = p.2.id ∧ p.1 ≠ ""
  dimCount : ∀ rid rule, findRule st.rules rid = some rule →
    ∀ d, (st.byDimension d).count rid = onebkt (some rule.dimension) d
  catCount : ∀ rid rule, findRule st.rules rid = some rule →
    ∀ c, (st.byCategory c).count rid = onebkt rule.category c
  sevCount : ∀ rid rule, findRule st.rules rid = some rule →
    ∀ s, (st.bySeverity s).count rid = onebkt (some rule.severity) s
  dimMem : ∀ d rid, rid ∈ st.byDimension d → (findRule st.rules rid).isSome = true
  catMem : ∀ c rid, rid ∈ st.byCategory c → (findRule st.rules rid).isSome = true
  sevMem : ∀ s rid, rid ∈ st.bySeverity s → (findRule st.rules rid).isSome = true

theorem emptyRegistry_inv : Inv emptyRegistry := by
  refine ⟨?_, ?_, ?_, ?_, ?_, ?_, ?_, ?_⟩ <;>
    simp [emptyRegistry, keysOf, findRule]

theorem register_ok_id_ne (rule : Rule) (replace : Bool) (st st' : RuleRegistry)
    (h : register rule replace st = .ok st') : rule.id ≠ "" := by
  intro he
  unfold register at h
  rw [if_pos he] at h
  cases h

theorem register_ok_findRule (rule : Rule) (replace : Bool) (st st' : RuleRegistry)
    (h : register rule replace st = .ok st') :
    findRule st'.rules rule.id = some rule := by
  rw [register_ok_eq rule replace st st' h]
  unfold registerPost
  split <;>
  · simp only
    rw [findRule_dictInsert, if_pos rfl]

/-- `register` with `replace=true` never errors on a non-empty id. -/
theorem register_replace_ok (rule : Rule) (st : RuleRegistry) (hne : rule.id ≠ "") :
    ∃ st', register rule true st = .ok st' := by
  unfold register
  rw [if_neg hne]
  simp only [Bool.not_true, Bool.and_false, Bool.false_eq_true, if_false]
  cases rule.category <;> exact ⟨_, rfl⟩

/-- Registered ids never occur in any secondary index bucket when they
are absent from the primary map. -/
theorem count_zero_of_absent (st : RuleRegistry) (hInv : Inv st) (rid : String)
    (h : (findRule st.rules rid).isSome = false) :
    (∀ d, (st.byDimension d).count rid = 0) ∧
    (∀ c, (st.byCategory c).count rid = 0) ∧
    (∀ s, (st.bySeverity s).count rid = 0) := by
  refine ⟨?_, ?_, ?_⟩ <;>
  · intro x
    rw [List.count_eq_zero]
    intro hm
    first
    | exact absurd (hInv.dimMem x rid hm) (by simp [h])
    | exact absurd (hInv.catMem x rid hm) (by simp [h])
    | exact absurd (hInv.sevMem x rid hm) (by simp [h])

/-- `register` preserves the consistency invariant. -/
theorem register_inv (rule : Rule) (replace : Bool) (st st' : RuleRegistry)
    (h : register rule replace st = .ok st') (hInv : Inv st) : Inv st' := by
  have hne : rule.id ≠ "" := register_ok_id_ne rule replace st st' h
  rw [register_ok_eq rule replace st st' h]
  by_cases hpres : (findRule st.rules rule.id).isSome = true
  · -- replacement: the old rule's index entries are purged first
    rcases Option.isSome_iff_exists.mp hpres with ⟨old, hold⟩
    have hshape : registerPost rule st =
        { rules := dictInsert rule.id rule st.rules,
          byDimension := optAppendAt
            (optEraseAt st.byDimension (some old.dimension) rule.id)
            (some rule.dimension) rule.id,
          byCategory := optAppendAt
            (optEraseAt st.byCategory old.category rule.id)
            rule.category rule.id,
          bySeverity := optAppendAt
            (optEraseAt st.bySeverity (some old.severity) rule.id)
            (some rule.severity) rule.id } := by
      unfold registerPost
      rw [if_pos hpres, removeFromIndices_eq, hold]
    rw [hshape]
    have hfr : ∀ rid, findRule (dictInsert rule.id rule st.rules) rid
        = if rid = rule.id then some rule else findRule st.rules rid :=
      fun rid => findRule_dictInsert _ _ _ _
    have hkeys : keysOf (dictInsert rule.id rule st.rules) = keysOf st.rules :=
      keysOf_dictInsert_mem _ _ _ ((findRule_isSome_iff _ _).mp hpres)
    refine ⟨?_, ?_, ?_, ?_, ?_, ?_, ?_, ?_⟩
    · show (keysOf (dictInsert rule.id rule st.rules)).Nodup
      rw [hkeys]
      exact hInv.nodup
    · intro p hp
      rcases mem_dictInsert _ _ _ _ hp with he | hp
      · subst he; exact ⟨rfl, hne⟩
      · exact hInv.keyId p hp
    · intro rid r hr d
      simp only at hr ⊢
      rw [hfr] at hr
      by_cases hrid : rid = rule.id
      · subst hrid
        rw [if_pos rfl] at hr
        cases hr
        exact optAppend_count_self _ _ _
          (optErase_count_self _ _ _ (fun x => hInv.dimCount _ _ hold x)) d
      · rw [if_neg hrid] at hr
        rw [optAppend_count_other _ _ _ _ hrid, optErase_count_other _ _ _ _ hrid]
        exact hInv.dimCount _ _ hr d
    · intro rid r hr c
      simp only at hr ⊢
      rw [hfr] at hr
      by_cases hrid : rid = rule.id
      · subst hrid
        rw [if_pos rfl] at hr
        cases hr
        exact optAppend_count_self _ _ _
          (optErase_count_self _ _ _ (fun x => hInv.catCount _ _ hold x)) c
      · rw [if_neg hrid] at hr
        rw [optAppend_count_other _ _ _ _ hrid, optErase_count_other _ _ _ _ hrid]
        exact hInv.catCount _ _ hr c
    · intro rid r hr s
      simp only at hr ⊢
      rw [hfr] at hr
      by_cases hrid : rid = rule.id
      · subst hrid
        rw [if_pos rfl] at hr
        cases hr
        exact optAppend_count_self _ _ _
          (optErase_count_self _ _ _ (fun x => hInv.sevCount _ _ hold x)) s
      · rw [if_neg hrid] at hr
        rw [optAppend_count_other _ _ _ _ hrid, optErase_count_other _ _ _ _ hrid]
        exact hInv.sevCount _ _ hr s
    · intro d rid hm
      simp only at hm ⊢
      rcases optAppend_mem _ _ _ _ _ hm with hm | he
      · exact findRule_dictInsert_isSome _ _ _ _
          (hInv.dimMem d rid (optErase_mem _ _ _ _ _ hm))
      · subst he
        rw [hfr, if_pos rfl]
        rfl
    · intro c rid hm
      simp only at hm ⊢
      rcases optAppend_mem _ _ _ _ _ hm with hm | he
      · exact findRule_dictInsert_isSome _ _ _ _
          (hInv.catMem c rid (optErase_mem _ _ _ _ _ hm))
      · subst he
        rw [hfr, if_pos rfl]
        rfl
    · intro s rid hm
      simp only at hm ⊢
      rcases optAppend_mem _ _ _ _ _ hm with hm | he
      · exact findRule_dictInsert_isSome _ _ _ _
          (hInv.sevMem s rid (optErase_mem _ _ _ _ _ hm))
      · subst he
        rw [hfr, if_pos rfl]
        rfl
  · -- fresh id
    have hzero := count_zero_of_absent st hInv rule.id (by simpa using hpres)
    have hshape : registerPost rule st =
        { rules := dictInsert rule.id rule st.rules,
          byDimension := optAppendAt st.byDimension (some rule.dimension) rule.id,
          byCategory := optAppendAt st.byCategory rule.category rule.id,
          bySeverity := optAppendAt st.bySeverity (some rule.severity) rule.id } := by
      unfold registerPost
      rw [if_neg hpres]
    rw [hshape]
    have hfr : ∀ rid, findRule (dictInsert rule.id rule st.rules) rid
        = if rid = rule.id then some rule else findRule st.rules rid :=
      fun rid => findRule_dictInsert _ _ _ _
    have hnotmem : rule.id ∉ keysOf st.rules := by
      rw [← findRule_eq_none_iff]
      cases hf : findRule st.rules rule.id with
      | none => rfl
      | some v => rw [hf] at hpres; exact absurd rfl hpres
    have hkeys : keysOf (dictInsert rule.id rule st.rules) = keysOf st.rules ++ [rule.id] :=
      keysOf_dictInsert_notMem _ _ _ hnotmem
    refine ⟨?_, ?_, ?_, ?_, ?_, ?_, ?_, ?_⟩
    · show (keysOf (dictInsert rule.id rule st.rules)).Nodup
      rw [hkeys]
      exact nodup_append_one _ _ hInv.nodup hnotmem
    · intro p hp
      rcases mem_dictInsert _ _ _ _ hp with he | hp
      · subst he; exact ⟨rfl, hne⟩
      · exact hInv.keyId p hp
    · intro rid r hr d
      simp only at hr ⊢
      rw [hfr] at hr
      by_cases hrid : rid = rule.id
      · subst hrid
        rw [if_pos rfl] at hr
        cases hr
        exact optAppend_count_self _ _ _ hzero.1 d
      · rw [if_neg hrid] at hr
        rw [optAppend_count_other _ _ _ _ hrid]
        exact hInv.dimCount _ _ hr d
    · intro rid r hr c
      simp only at hr ⊢
      rw [hfr] at hr
      by_cases hrid : rid = rule.id
      · subst hrid
        rw [if_pos rfl] at hr
        cases hr
        exact optAppend_count_self _ _ _ hzero.2.1 c
      · rw [if_neg hrid] at hr
        rw [optAppend_count_other _ _ _ _ hrid]
        exact hInv.catCount _ _ hr c
    · intro rid r hr s
      simp only at hr ⊢
      rw [hfr] at hr
      by_cases hrid : rid = rule.id
      · subst hrid
        rw [if_pos rfl] at hr
        cases hr
        exact optAppend_count_self _ _ _ hzero.2.2 s
      · rw [if_neg hrid] at hr
        rw [optAppend_count_other _ _ _ _ hrid]
        exact hInv.sevCount _ _ hr s
    · intro d rid hm
      simp only at hm ⊢
      rcases optAppend_mem _ _ _ _ _ hm with hm | he
      · exact findRule_dictInsert_isSome _ _ _ _ (hInv.dimMem d rid hm)
      · subst he
        rw [hfr, if_pos rfl]
        rfl
    · intro c rid hm
      simp only at hm ⊢
      rcases optAppend_mem _ _ _ _ _ hm with hm | he
      · exact findRule_dictInsert_isSome _ _ _ _ (hInv.catMem c rid hm)
      · subst he
        rw [hfr, if_pos rfl]
        rfl
    · intro s rid hm
      simp only at hm ⊢
      rcases optAppend_mem _ _ _ _ _ hm with hm | he
      · exact findRule_dictInsert_isSome _ _ _ _ (hInv.sevMem s rid hm)
      · subst he
        rw [hfr, if_pos rfl]
        rfl

/-- `unregister` preserves the consistency invariant. -/
theorem unregister_inv (ruleId : String) (st : RuleRegistry) (hInv : Inv st) :
    Inv (unregister ruleId st).2 := by
  unfold unregister
  cases hold : findRule st.rules ruleId with
  | none => exact hInv
  | some old =>
    simp only [removeFromIndices_eq, hold]
    have hfr : ∀ rid, findRule (dictRemove ruleId st.rules) rid
        = if rid = ruleId then none else findRule st.rules rid :=
      fun rid => findRule_dictRemove _ _ _ hInv.nodup
    refine ⟨?_, ?_, ?_, ?_, ?_, ?_, ?_, ?_⟩
    · show (keysOf (dictRemove ruleId st.rules)).Nodup
      rw [keysOf_dictRemove]
      exact hInv.nodup.erase ruleId
    · intro p hp
      exact hInv.keyId p (mem_dictRemove _ _ _ hp)
    · intro rid r hr d
      simp only at hr ⊢
      rw [hfr] at hr
      split at hr
      · cases hr
      · rename_i hrid
        rw [optErase_count_other _ _ _ _ hrid]
        exact hInv.dimCount _ _ hr d
    · intro rid r hr c
      simp only at hr ⊢
      rw [hfr] at hr
      split at hr
      · cases hr
      · rename_i hrid
        rw [optErase_count_other _ _ _ _ hrid]
        exact hInv.catCount _ _ hr c
    · intro rid r hr s
      simp only at hr ⊢
      rw [hfr] at hr
      split at hr
      · cases hr
      · rename_i hrid
        rw [optErase_count_other _ _ _ _ hrid]
        exact hInv.sevCount _ _ hr s
    · intro d rid hm
      simp only at hm ⊢
      by_cases hrid : rid = ruleId
      · subst hrid
        have hz := optErase_count_self st.byDimension (some old.dimension) rid
          (fun x => hInv.dimCount _ _ hold x) d
        exact absurd hm (by rw [← List.count_eq_zero] at *; exact hz)
      · rw [hfr, if_neg hrid]
        exact hInv.dimMem d rid (optErase_mem _ _ _ _ _ hm)
    · intro c rid hm
      simp only at hm ⊢
      by_cases hrid : rid = ruleId
      · subst hrid
        have hz := optErase_count_self st.byCategory old.category rid
          (fun x => hInv.catCount _ _ hold x) c
        exact absurd hm (by rw [← List.count_eq_zero] at *; exact hz)
      · rw [hfr, if_neg hrid]
        exact hInv.catMem c rid (optErase_mem _ _ _ _ _ hm)
    · intro s rid hm
      simp only at hm ⊢
      by_cases hrid : rid = ruleId
      · subst hrid
        have hz := optErase_count_self st.bySeverity (some old.severity) rid
          (fun x => hInv.sevCount _ _ hold x) s
        exact absurd hm (by rw [← List.count_eq_zero] at *; exact hz)
      · rw [hfr, if_neg hrid]
        exact hInv.sevMem s rid (optErase_mem _ _ _ _ _ hm)

/-- One registry operation: a `register` call (a raised duplicate-id
or empty-id error leaves the state unchanged — the source raises
before mutating) or an `unregister` call. -/
inductive RegOp where
  | reg (r : Rule) (replace : Bool)
  | unreg (id : String)

/-- Apply one operation to the registry state. -/
def applyOp (st : RuleRegistry) : RegOp → RuleRegistry
  | .reg r rep =>
    match register r rep st with
    | .ok st' => st'
    | .error _ => st
  | .unreg i => (unregister i st).2

/-- Apply a sequence of operations starting from a fresh registry. -/
def applyOps (ops : List RegOp) : RuleRegistry :=
  ops.foldl applyOp emptyRegistry

theorem applyOp_inv (st : RuleRegistry) (op : RegOp) (h : Inv st) :
    Inv (applyOp st op) := by
  cases op with
  | reg r rep =>
    simp only [applyOp]
    cases hr : register r rep st with
    | ok st' => exact register_inv r rep st st' hr h
    | error e => exact h
  | unreg i =>
    simp only [applyOp]
    exact unregister_inv i st h

theorem foldl_applyOp_inv (ops : List RegOp) (st : RuleRegistry) (h : Inv st) :
    Inv (ops.foldl applyOp st) := by
  induction ops generalizing st with
  | nil => exact h
  | cons op rest ih => exact ih (applyOp st op) (applyOp_inv st op h)

/-- C7: after any sequence of register/unregister operations starting
from a fresh `RuleRegistry`, the index-consistency invariant holds:
every rule id appearing in any secondary index exists in the primary
id-to-rule map, and every rule in the primary map appears in exactly
the secondary index buckets matching its current dimension, category
(if any) and severity. -/
theorem registry_index_consistency (ops : List RegOp) : Inv (applyOps ops) :=
  foldl_applyOp_inv ops emptyRegistry emptyRegistry_inv

theorem onebkt_some {K : Type} [DecidableEq K] (a x : K) :
    onebkt (some a) x = if x = a then 1 else 0 := by
  unfold onebkt
  by_cases h : x = a
  · rw [if_pos h, if_pos (by rw [h])]
  · rw [if_neg h, if_neg (by intro e; cases e; exact h rfl)]

/-- C6: on any consistent registry state already holding a rule under
id `rule.id`, `register(rule, replace=False)` fails with an error (the
source raises before mutating anything, so the state is untouched),
while `register(rule, replace=True)` succeeds and afterwards the id is
mapped to the new rule and occurs exactly once in the secondary index
buckets matching the new rule's dimension, category (if any) and
severity, and in no other bucket — the previously registered rule's
index entries are fully purged. -/
theorem register_duplicate_rejected_replace_purges (st : RuleRegistry)
    (rule old : Rule) (hInv : Inv st)
    (hold : findRule st.rules rule.id = some old) :
    (∃ msg, register rule false st = .error msg) ∧
    (∃ st', register rule true st = .ok st' ∧
      findRule st'.rules rule.id = some rule ∧
      (∀ d, (st'.byDimension d).count rule.id = if d = rule.dimension then 1 else 0) ∧
      (∀ c, (st'.byCategory c).count rule.id = if rule.category = some c then 1 else 0) ∧
      (∀ s, (st'.bySeverity s).count rule.id = if s = rule.severity then 1 else 0)) := by
  have hne : rule.id ≠ "" := (hInv.keyId _ (findRule_mem _ _ _ hold)).2
  constructor
  · have herr : register rule false st
        = .error ("Rule \x27" ++ rule.id ++ "\x27 is already registered. Use replace=True to override.") := by
      unfold register
      rw [if_neg hne, if_pos (by rw [hold]; rfl)]
    exact ⟨_, herr⟩
  · rcases register_replace_ok rule st hne with ⟨st', hok⟩
    have hInv' := register_inv rule true st st' hok hInv
    have hfind := register_ok_findRule rule true st st' hok
    refine ⟨st', hok, hfind, ?_, ?_, ?_⟩
    · intro d
      rw [hInv'.dimCount _ _ hfind d, onebkt_some]
    · intro c
      rw [hInv'.catCount _ _ hfind c]
      rfl
    · intro s
      rw [hInv'.sevCount _ _ hfind s, onebkt_some]

/-- A concrete witness rule and its replacement under the same id. -/
def ruleW1 : Rule :=
  { id := "PERF-SCAN-001", dimension := .performance,
    category := some "scan", severity := .high }

/-- Replacement rule: same id, different dimension, no category,
different severity. -/
def ruleW2 : Rule :=
  { id := "PERF-SCAN-001", dimension := .security,
    category := none, severity := .low }

/-- The registry holding `ruleW1`, obtained by registering it into a
fresh registry. -/
def registryW : RuleRegistry :=
  match register ruleW1 false emptyRegistry with
  | .ok st => st
  | .error _ => emptyRegistry

/-- Witness for C6 at a concrete state: re-registering the id without
`replace` fails; with `replace` it succeeds and the new counts are
exactly one in the new rule's buckets. -/
theorem register_duplicate_rejected_replace_purges_witness :
    (∃ msg, register ruleW2 false registryW = .error msg) ∧
    (∃ st', register ruleW2 true registryW = .ok st' ∧
      findRule st'.rules ruleW2.id = some ruleW2 ∧
      (∀ d, (st'.byDimension d).count ruleW2.id = if d = ruleW2.dimension then 1 else 0) ∧
      (∀ c, (st'.byCategory c).count ruleW2.id = if ruleW2.category = some c then 1 else 0) ∧
      (∀ s, (st'.bySeverity s).count ruleW2.id = if s = ruleW2.severity then 1 else 0)) :=
  register_duplicate_rejected_replace_purges registryW ruleW2 ruleW1
    (register_inv ruleW1 false emptyRegistry registryW rfl emptyRegistry_inv)
    rfl

/-! ## Claim C4: idempotence of normalization

Stripping a block comment can glue two spaces together
(`"SELECT /*x*/ 1"` normalizes to `"SELECT  1"` because the
whitespace collapse runs *before* comment removal), so a second
normalization is not a no-op in general.  The lemmas below establish
the amended statement: on inputs with no block-comment opener `/*`,
normalization is idempotent.  The proof represents the normalized
text as a join of whitespace-free words and tracks each stage through
that representation. -/

theorem words_sp (c : Char) (r : List Char) (h : pySpace c = true) :
    words (c :: r) = words r := by
  simp [words, h]

theorem words_ns_nil (c : Char) (h : pySpace c = false) :
    words [c] = [[c]] := by
  simp [words, h]

theorem words_ns_sp (c c2 : Char) (r : List Char) (h : pySpace c = false)
    (h2 : pySpace c2 = true) :
    words (c :: c2 :: r) = [c] :: words (c2 :: r) := by
  simp [words, h, h2]

theorem words_ne_nil (c : Char) (r : List Char) (h : pySpace c = false) :
    words (c :: r) ≠ [] := by
  unfold words
  rw [if_neg (by simp [h])]
  cases r with
  | nil => simp
  | cons c2 r2 =>
    by_cases h2 : pySpace c2 = true
    · simp [h2]
    · simp only [eq_self_iff_true]
      rw [if_neg (by simpa using h2)]
      cases words (c2 :: r2) <;> simp

theorem words_ns_ns (c c2 : Char) (r2 : List Char) (w1 : List Char)
    (rest : List (List Char)) (h : pySpace c = false) (h2 : pySpace c2 = false)
    (hw : words (c2 :: r2) = w1 :: rest) :
    words (c :: c2 :: r2) = (c :: w1) :: rest := by
  unfold words
  rw [if_neg (by simp [h])]
  simp only
  rw [if_neg (by simp [h2]), hw]

/-- Every produced word is non-empty and whitespace-free. -/
def GoodW (ws : List (List Char)) : Prop :=
  ∀ w ∈ ws, w ≠ [] ∧ ∀ c ∈ w, pySpace c = false

theorem goodW_words (l : List Char) : GoodW (words l) := by
  induction l with
  | nil => intro w hw; cases hw
  | cons c r ih =>
    by_cases h : pySpace c = true
    · rw [words_sp c r h]; exact ih
    · replace h : pySpace c = false := by simpa using h
      cases r with
      | nil =>
        rw [words_ns_nil c h]
        intro w hw
        rcases List.mem_singleton.mp hw with rfl
        exact ⟨by simp, by intro x hx; rcases List.mem_singleton.mp hx with rfl; exact h⟩
      | cons c2 r2 =>
        by_cases h2 : pySpace c2 = true
        · rw [words_ns_sp c c2 r2 h h2]
          intro w hw
          rcases List.mem_cons.mp hw with rfl | hw
          · exact ⟨by simp, by intro x hx; rcases List.mem_singleton.mp hx with rfl; exact h⟩
          · exact ih w hw
        · replace h2 : pySpace c2 = false := by simpa using h2
          cases hw : words (c2 :: r2) with
          | nil => exact absurd hw (words_ne_nil c2 r2 h2)
          | cons w1 rest =>
            rw [words_ns_ns c c2 r2 w1 rest h h2 hw]
            intro w hww
            rcases List.mem_cons.mp hww with rfl | hww
            · have hg := ih w1 (by rw [hw]; exact List.mem_cons_self _ _)
              refine ⟨by simp, ?_⟩
              intro x hx
              rcases List.mem_cons.mp hx with rfl | hx
              · exact h
              · exact hg.2 x hx
            · exact ih w (by rw [hw]; exact List.mem_cons_of_mem _ hww)

/-- The words of a single whitespace-free non-empty word. -/
theorem words_of_word (w : List Char) (hne : w ≠ [])
    (hns : ∀ c ∈ w, pySpace c = false) : words w = [w] := by
  induction w with
  | nil => exact absurd rfl hne
  | cons c r ih =>
    have hc : pySpace c = false := hns c (List.mem_cons_self _ _)
    cases r with
    | nil => exact words_ns_nil c hc
    | cons c2 r2 =>
      have h2 : pySpace c2 = false :=
        hns c2 (List.mem_cons_of_mem _ (List.mem_cons_self _ _))
      have ihr : words (c2 :: r2) = [c2 :: r2] :=
        ih (by simp) (fun x hx => hns x (List.mem_cons_of_mem _ hx))
      exact words_ns_ns c c2 r2 (c2 :: r2) [] hc h2 ihr

/-- Splitting a word followed by a space: the word comes off whole. -/
theorem words_word_append (w t : List Char) (hne : w ≠ [])
    (hns : ∀ c ∈ w, pySpace c = false) :
    words (w ++ ' ' :: t) = w :: words t := by
  induction w with
  | nil => exact absurd rfl hne
  | cons c r ih =>
    have hc : pySpace c = false := hns c (List.mem_cons_self _ _)
    cases r with
    | nil =>
      rw [List.cons_append, List.nil_append]
      rw [words_ns_sp c ' ' t hc (by decide)]
      rw [words_sp ' ' t (by decide)]
    | cons c2 r2 =>
      have h2 : pySpace c2 = false :=
        hns c2 (List.mem_cons_of_mem _ (List.mem_cons_self _ _))
      have ihr : words ((c2 :: r2) ++ ' ' :: t) = (c2 :: r2) :: words t :=
        ih (by simp) (fun x hx => hns x (List.mem_cons_of_mem _ hx))
      rw [List.cons_append]
      exact words_ns_ns c c2 (r2 ++ ' ' :: t) (c2 :: r2) (words t) hc h2 ihr

/-- Words of a join of good words: the original words come back. -/
theorem words_joinSp (ws : List (List Char)) (hg : GoodW ws) :
    words (joinSp ws) = ws := by
  induction ws with
  | nil => rfl
  | cons w ws' ih =>
    have hw := hg w (List.mem_cons_self _ _)
    cases ws' with
    | nil =>
      show words w = [w]
      exact words_of_word w hw.1 hw.2
    | cons w2 ws'' =>
      show words (w ++ ' ' :: joinSp (w2 :: ws'')) = w :: w2 :: ws''
      rw [words_word_append w _ hw.1 hw.2,
        ih (fun x hx => hg x (List.mem_cons_of_mem _ hx))]

theorem startsW_nil_pat (l : List Char) : startsW l [] = true := by
  cases l <;> rfl

theorem startsW_append (x s pat : List Char) (h : startsW x pat = true) :
    startsW (x ++ s) pat = true := by
  induction pat generalizing x with
  | nil => exact startsW_nil_pat _
  | cons p ps ih =>
    cases x with
    | nil => cases h
    | cons c r =>
      simp only [startsW, Bool.and_eq_true] at h
      simp only [List.cons_append, startsW, Bool.and_eq_true]
      exact ⟨h.1, ih r h.2⟩

theorem hasSub_nil_pat (l : List Char) : hasSub [] l = true := by
  cases l <;> simp [hasSub, startsW_nil_pat]

theorem hasSub_append_left (pat x s : List Char) (h : hasSub pat x = true) :
    hasSub pat (x ++ s) = true := by
  induction x with
  | nil =>
    cases pat with
    | nil => exact hasSub_nil_pat s
    | cons p ps => simp [hasSub, startsW] at h
  | cons c r ih =>
    simp only [hasSub, Bool.or_eq_true] at h
    simp only [List.cons_append, hasSub, Bool.or_eq_true]
    rcases h with h | h
    · exact Or.inl (startsW_append _ _ _ h)
    · exact Or.inr (ih h)

theorem hasSub_append_right (pat x s : List Char) (h : hasSub pat s = true) :
    hasSub pat (x ++ s) = true := by
  induction x with
  | nil => exact h
  | cons c r ih =>
    simp only [List.cons_append, hasSub, Bool.or_eq_true]
    exact Or.inr ih

theorem hasSub_chunk (pat p w s : List Char) (h : hasSub pat w = true) :
    hasSub pat (p ++ w ++ s) = true := by
  rw [List.append_assoc]
  exact hasSub_append_right pat p (w ++ s) (hasSub_append_left pat w s h)

/-- Decomposing an occurrence of a two-character pattern across an
append: it lies in the left part, in the right part, or across the
boundary. -/
theorem pair_append_cases (a b : Char) (x y : List Char)
    (h : hasSub [a, b] (x ++ y) = true) :
    hasSub [a, b] x = true ∨ hasSub [a, b] y = true ∨
      (x.getLast? = some a ∧ y.head? = some b) := by
  induction x with
  | nil => exact Or.inr (Or.inl h)
  | cons c r ih =>
    have h' : (startsW (c :: (r ++ y)) [a, b] || hasSub [a, b] (r ++ y)) = true := h
    cases hs : startsW (c :: (r ++ y)) [a, b] with
    | true =>
      have h1 : (decide (c = a) && startsW (r ++ y) [b]) = true := hs
      rcases Bool.and_eq_true _ _ |>.mp h1 with ⟨hca, hsb⟩
      have hca : c = a := of_decide_eq_true hca
      subst hca
      cases r with
      | nil =>
        cases y with
        | nil => cases hsb
        | cons d ys =>
          have h2 : (decide (d = b) && startsW ys []) = true := hsb
          rcases Bool.and_eq_true _ _ |>.mp h2 with ⟨hdb, _⟩
          have hdb : d = b := of_decide_eq_true hdb
          refine Or.inr (Or.inr ⟨rfl, ?_⟩)
          rw [List.head?_cons, hdb]
      | cons d rs =>
        have h2 : (decide (d = b) && startsW (rs ++ y) []) = true := hsb
        rcases Bool.and_eq_true _ _ |>.mp h2 with ⟨hdb, _⟩
        have hdb : d = b := of_decide_eq_true hdb
        left
        show (startsW (c :: d :: rs) [c, b] || hasSub [c, b] (d :: rs)) = true
        have hw : startsW (c :: d :: rs) [c, b] = true := by
          show (decide (c = c) && startsW (d :: rs) [b]) = true
          rw [decide_eq_true rfl, Bool.true_and]
          show (decide (d = b) && startsW rs []) = true
          rw [decide_eq_true hdb, Bool.true_and, startsW_nil_pat]
        rw [hw, Bool.true_or]
    | false =>
      rw [hs, Bool.false_or] at h'
      rcases ih h' with h1 | h1 | h1
      · left
        show (startsW (c :: r) [a, b] || hasSub [a, b] r) = true
        rw [h1, Bool.or_true]
      · exact Or.inr (Or.inl h1)
      · rcases h1 with ⟨hl, hh⟩
        refine Or.inr (Or.inr ⟨?_, hh⟩)
        cases r with
        | nil => simp at hl
        | cons d rs => rw [List.getLast?_cons_cons]; exact hl

/-- A two-character pattern of non-space characters occurring in a
join of words occurs inside one of the words. -/
theorem pair_in_joinSp (a b : Char) (ha : pySpace a = false)
    (hb : pySpace b = false) :
    ∀ ws : List (List Char), hasSub [a, b] (joinSp ws) = true →
      ∃ w ∈ ws, hasSub [a, b] w = true := by
  intro ws
  induction ws with
  | nil => intro h; simp [joinSp, hasSub, startsW] at h
  | cons w ws' ih =>
    intro h
    cases ws' with
    | nil => exact ⟨w, List.mem_singleton_self w, h⟩
    | cons w2 ws'' =>
      have hj : joinSp (w :: w2 :: ws'') = w ++ ' ' :: joinSp (w2 :: ws'') := rfl
      rw [hj] at h
      rcases pair_append_cases a b w _ h with h | h | h
      · exact ⟨w, List.mem_cons_self _ _, h⟩
      · rw [show hasSub [a, b] (' ' :: joinSp (w2 :: ws''))
          = (startsW (' ' :: joinSp (w2 :: ws'')) [a, b]
             || hasSub [a, b] (joinSp (w2 :: ws''))) from rfl] at h
        rcases Bool.or_eq_true _ _ |>.mp h with h | h
        · simp only [startsW, Bool.and_eq_true, decide_eq_true_eq] at h
          rw [← h.1] at ha
          cases ha
        · rcases ih h with ⟨w', hw', hh⟩
          exact ⟨w', List.mem_cons_of_mem _ hw', hh⟩
      · rcases h with ⟨_, hh⟩
        simp only [List.head?_cons, Option.some.injEq] at hh
        rw [← hh] at hb
        cases hb

/-- Every character of a join is a word character or the separator. -/
theorem mem_joinSp (c : Char) : ∀ ws : List (List Char),
    c ∈ joinSp ws → (∃ w ∈ ws, c ∈ w) ∨ c = ' ' := by
  intro ws
  induction ws with
  | nil => intro h; cases h
  | cons w ws' ih =>
    intro h
    cases ws' with
    | nil => exact Or.inl ⟨w, List.mem_singleton_self w, h⟩
    | cons w2 ws'' =>
      rcases List.mem_append.mp h with h | h
      · exact Or.inl ⟨w, List.mem_cons_self _ _, h⟩
      · rcases List.mem_cons.mp h with rfl | h
        · exact Or.inr rfl
        · rcases ih h with ⟨w', hw', hc⟩ | hc
          · exact Or.inl ⟨w', List.mem_cons_of_mem _ hw', hc⟩
          · exact Or.inr hc

/-- Each word of `words l` is a contiguous chunk of `l`; moreover when
`l` starts with a non-space character, the head word of `words l` is a
prefix of `l`. -/
theorem words_chunks (l : List Char) :
    (∀ w ∈ words l, ∃ p s, l = p ++ w ++ s) ∧
    (∀ w1 rest, words l = w1 :: rest →
      (∀ c r, l = c :: r → pySpace c = false) → ∃ s, l = w1 ++ s) := by
  induction l with
  | nil =>
    refine ⟨fun w hw => absurd hw (by simp [words]), ?_⟩
    intro w1 rest hw _
    cases hw
  | cons c r ih =>
    by_cases h : pySpace c = true
    · rw [words_sp c r h]
      refine ⟨?_, ?_⟩
      · intro w hw
        rcases ih.1 w hw with ⟨p, s, he⟩
        exact ⟨c :: p, s, by rw [he]; rfl⟩
      · intro w1 rest _ hns
        have := hns c r rfl
        rw [h] at this
        cases this
    · replace h : pySpace c = false := by simpa using h
      cases r with
      | nil =>
        rw [words_ns_nil c h]
        refine ⟨?_, ?_⟩
        · intro w hw
          rcases List.mem_singleton.mp hw with rfl
          exact ⟨[], [], rfl⟩
        · intro w1 rest hw _
          cases hw
          exact ⟨[], by simp⟩
      | cons c2 r2 =>
        by_cases h2 : pySpace c2 = true
        · rw [words_ns_sp c c2 r2 h h2]
          refine ⟨?_, ?_⟩
          · intro w hw
            rcases List.mem_cons.mp hw with rfl | hw
            · exact ⟨[], c2 :: r2, rfl⟩
            · rcases ih.1 w hw with ⟨p, s, he⟩
              exact ⟨c :: p, s, by rw [he]; rfl⟩
          · intro w1 rest hw _
            cases hw
            exact ⟨c2 :: r2, rfl⟩
        · replace h2 : pySpace c2 = false := by simpa using h2
          cases hwr : words (c2 :: r2) with
          | nil => exact absurd hwr (words_ne_nil c2 r2 h2)
          | cons wr1 wrest =>
            rw [words_ns_ns c c2 r2 wr1 wrest h h2 hwr]
            have hpre : ∃ s, c2 :: r2 = wr1 ++ s := by
              rcases ih with ⟨_, ih2⟩
              rw [hwr] at ih2
              exact ih2 wr1 wrest rfl (by
                intro c' r' he
                injection he with e1 e2
                rw [← e1]
                exact h2)
            refine ⟨?_, ?_⟩
            · intro w hw
              rcases List.mem_cons.mp hw with rfl | hw
              · rcases hpre with ⟨s, hs⟩
                exact ⟨[], s, by rw [List.nil_append, List.cons_append, ← hs]⟩
              · rcases ih.1 w (by rw [hwr]; exact List.mem_cons_of_mem _ hw) with ⟨p, s, he⟩
                exact ⟨c :: p, s, by rw [he]; rfl⟩
            · intro w1 rest hw _
              cases hw
              rcases hpre with ⟨s, hs⟩
              exact ⟨s, by rw [List.cons_append, ← hs]⟩
/-- A non-space two-character pattern absent from `l` is also absent
from the whitespace-collapsed form of `l`. -/
theorem pair_not_in_collapse (a b : Char) (ha : pySpace a = false)
    (hb : pySpace b = false) (l : List Char)
    (h : hasSub [a, b] l = false) :
    hasSub [a, b] (joinSp (words l)) = false := by
  cases hj : hasSub [a, b] (joinSp (words l)) with
  | false => rfl
  | true =>
    rcases pair_in_joinSp a b ha hb (words l) hj with ⟨w, hw, hsub⟩
    rcases (words_chunks l).1 w hw with ⟨p, s, he⟩
    rw [he, hasSub_chunk [a, b] p w s hsub] at h
    cases h

/-- Prefix of a single line before its first `--` occurrence (models what
`cutLines` does to newline-free input). -/
def cutDD : List Char → List Char
  | [] => []
  | c :: r => if c = '-' ∧ r.head? = some '-' then [] else c :: cutDD r

theorem cutLinesGo_true_no_nl (l : List Char) (h : '\n' ∉ l) :
    cutLinesGo true l = [] := by
  induction l with
  | nil => rfl
  | cons c r ih =>
    show (if c = '\n' then c :: cutLinesGo false r else cutLinesGo true r) = []
    have hne : c ≠ '\n' := by
      intro e
      apply h
      rw [← e]
      exact List.mem_cons_self c r
    rw [if_neg hne]
    exact ih (fun hm => h (List.mem_cons_of_mem c hm))

theorem cutLines_no_nl (l : List Char) (h : '\n' ∉ l) :
    cutLines l = cutDD l := by
  unfold cutLines
  induction l with
  | nil => rfl
  | cons c r ih =>
    show (if c = '-' ∧ r.head? = some '-' then cutLinesGo true r
        else c :: cutLinesGo false r) = cutDD (c :: r)
    unfold cutDD
    by_cases hg : c = '-' ∧ r.head? = some '-'
    · rw [if_pos hg, if_pos hg]
      exact cutLinesGo_true_no_nl r (fun hm => h (List.mem_cons_of_mem c hm))
    · rw [if_neg hg, if_neg hg]
      rw [ih (fun hm => h (List.mem_cons_of_mem c hm))]

theorem startsW_dd_guard (c : Char) (r : List Char)
    (h : startsW (c :: r) ['-', '-'] = true) :
    c = '-' ∧ r.head? = some '-' := by
  have h1 : (decide (c = '-') && startsW r ['-']) = true := h
  rcases Bool.and_eq_true _ _ |>.mp h1 with ⟨hc, hr⟩
  refine ⟨of_decide_eq_true hc, ?_⟩
  cases r with
  | nil => cases hr
  | cons d rs =>
    have h2 : (decide (d = '-') && startsW rs []) = true := hr
    rcases Bool.and_eq_true _ _ |>.mp h2 with ⟨hd, _⟩
    rw [List.head?_cons, of_decide_eq_true hd]

theorem dd_guard_startsW (c : Char) (r : List Char)
    (h : c = '-' ∧ r.head? = some '-') : startsW (c :: r) ['-', '-'] = true := by
  obtain ⟨rfl, h2⟩ := h
  cases r with
  | nil => cases h2
  | cons d rs =>
    rw [List.head?_cons, Option.some.injEq] at h2
    show (decide ('-' = '-') && startsW (d :: rs) ['-']) = true
    rw [decide_eq_true rfl, Bool.true_and]
    show (decide (d = '-') && startsW rs []) = true
    rw [decide_eq_true h2, Bool.true_and, startsW_nil_pat]

theorem cutDD_no_dd (w : List Char) (h : hasSub ['-', '-'] w = false) :
    cutDD w = w := by
  induction w with
  | nil => rfl
  | cons c r ih =>
    have hh : (startsW (c :: r) ['-', '-'] || hasSub ['-', '-'] r) = false := h
    rcases Bool.or_eq_false_iff.mp hh with ⟨hs, hr⟩
    unfold cutDD
    rw [if_neg (fun hg => by rw [dd_guard_startsW c r hg] at hs; cases hs)]
    rw [ih hr]

theorem cutDD_head (l : List Char) :
    cutDD l = [] ∨ (cutDD l).head? = l.head? := by
  cases l with
  | nil => exact Or.inl rfl
  | cons c r =>
    unfold cutDD
    by_cases hg : c = '-' ∧ r.head? = some '-'
    · rw [if_pos hg]; exact Or.inl rfl
    · rw [if_neg hg]; exact Or.inr rfl

theorem cutDD_no_dd_result (w : List Char) :
    hasSub ['-', '-'] (cutDD w) = false := by
  induction w with
  | nil => rfl
  | cons c r ih =>
    unfold cutDD
    by_cases hg : c = '-' ∧ r.head? = some '-'
    · rw [if_pos hg]; rfl
    · rw [if_neg hg]
      show (startsW (c :: cutDD r) ['-', '-'] || hasSub ['-', '-'] (cutDD r)) = false
      rw [ih, Bool.or_false]
      cases hs : startsW (c :: cutDD r) ['-', '-'] with
      | false => rfl
      | true =>
        rcases startsW_dd_guard c (cutDD r) hs with ⟨hc, hhd⟩
        rcases cutDD_head r with he | he
        · rw [he] at hhd; cases hhd
        · rw [he] at hhd
          exact absurd ⟨hc, hhd⟩ hg

theorem cutDD_prefix (w : List Char) : ∃ s, w = cutDD w ++ s := by
  induction w with
  | nil => exact ⟨[], rfl⟩
  | cons c r ih =>
    unfold cutDD
    by_cases hg : c = '-' ∧ r.head? = some '-'
    · rw [if_pos hg]; exact ⟨c :: r, rfl⟩
    · rw [if_neg hg]
      rcases ih with ⟨s, hs⟩
      exact ⟨s, by rw [List.cons_append, ← hs]⟩

theorem mem_cutDD (w : List Char) (c : Char) (h : c ∈ cutDD w) : c ∈ w := by
  rcases cutDD_prefix w with ⟨s, hs⟩
  rw [hs]
  exact List.mem_append.mpr (Or.inl h)

theorem hasSub_of_prefix (pat w s : List Char) (h : hasSub pat w = true) :
    hasSub pat (w ++ s) = true := hasSub_append_left pat w s h

theorem cutDD_append_dd (w x : List Char) (h : hasSub ['-', '-'] w = true) :
    cutDD (w ++ x) = cutDD w := by
  induction w with
  | nil => exact absurd h (by decide)
  | cons c r ih =>
    have hh : (startsW (c :: r) ['-', '-'] || hasSub ['-', '-'] r) = true := h
    rw [List.cons_append]
    unfold cutDD
    by_cases hg : c = '-' ∧ r.head? = some '-'
    · have hg2 : c = '-' ∧ (r ++ x).head? = some '-' := by
        obtain ⟨h1, h2⟩ := hg
        refine ⟨h1, ?_⟩
        cases r with
        | nil => cases h2
        | cons d rs => exact h2
      rw [if_pos hg2, if_pos hg]
    · have hr : hasSub ['-', '-'] r = true := by
        rcases Bool.or_eq_true _ _ |>.mp hh with hs | hrr
        · exact absurd (startsW_dd_guard c r hs) hg
        · exact hrr
      have hg2 : ¬(c = '-' ∧ (r ++ x).head? = some '-') := by
        intro hgx
        obtain ⟨h1, h2⟩ := hgx
        refine hg ⟨h1, ?_⟩
        cases r with
        | nil => cases hr
        | cons d rs => exact h2
      rw [if_neg hg2, if_neg hg, ih hr]

theorem cutDD_cons (c : Char) (r : List Char) :
    cutDD (c :: r) = if c = '-' ∧ r.head? = some '-' then [] else c :: cutDD r := rfl

theorem cutDD_append_ok (w t : List Char) (h : hasSub ['-', '-'] w = false) :
    cutDD (w ++ ' ' :: t) = w ++ ' ' :: cutDD t := by
  induction w with
  | nil =>
    rw [List.nil_append, List.nil_append, cutDD_cons]
    rw [if_neg (fun hg => by cases hg.1)]
  | cons c r ih =>
    have hh : (startsW (c :: r) ['-', '-'] || hasSub ['-', '-'] r) = false := h
    rcases Bool.or_eq_false_iff.mp hh with ⟨hs, hr⟩
    have hg : ¬(c = '-' ∧ r.head? = some '-') := by
      intro hg
      rw [dd_guard_startsW c r hg] at hs
      cases hs
    have hg2 : ¬(c = '-' ∧ (r ++ ' ' :: t).head? = some '-') := by
      intro hgx
      obtain ⟨h1, h2⟩ := hgx
      cases r with
      | nil =>
        rw [List.nil_append, List.head?_cons, Option.some.injEq] at h2
        cases h2
      | cons d rs => exact hg ⟨h1, h2⟩
    rw [List.cons_append, cutDD_cons]
    rw [if_neg hg2, ih hr]
    rfl

theorem rmBlockGo_false_id (l : List Char) (h : hasSub ['/', '*'] l = false) :
    rmBlockGo false l = l := by
  induction l with
  | nil => rfl
  | cons c r ih =>
    cases r with
    | nil => rfl
    | cons c2 r2 =>
      have hh : (startsW (c :: c2 :: r2) ['/', '*'] || hasSub ['/', '*'] (c2 :: r2)) = false := h
      rcases Bool.or_eq_false_iff.mp hh with ⟨hs, hr⟩
      have hng : ¬(c = '/' ∧ c2 = '*' ∧ hasSub ['*', '/'] r2 = true) := by
        intro hg
        obtain ⟨h1, h2, _⟩ := hg
        have hst : startsW (c :: c2 :: r2) ['/', '*'] = true := by
          show (decide (c = '/') && (decide (c2 = '*') && startsW r2 [])) = true
          rw [decide_eq_true h1, decide_eq_true h2, startsW_nil_pat]
          rfl
        rw [hst] at hs
        cases hs
      show (if c = '/' ∧ c2 = '*' ∧ hasSub ['*', '/'] r2 then rmBlockGo true r2
          else c :: rmBlockGo false (c2 :: r2)) = c :: c2 :: r2
      rw [if_neg hng, ih hr]

theorem rmBlock_id (l : List Char) (h : hasSub ['/', '*'] l = false) :
    rmBlock l = l := rmBlockGo_false_id l h

theorem dropWhile_all (l : List Char) (h : ∀ c ∈ l, pySpace c = false) :
    l.dropWhile pySpace = l := by
  cases l with
  | nil => rfl
  | cons c r =>
    rw [List.dropWhile_cons, if_neg (by simp [h c (List.mem_cons_self c r)])]

theorem pyStrip_all (l : List Char) (h : ∀ c ∈ l, pySpace c = false) :
    pyStrip l = l := by
  unfold pyStrip
  rw [dropWhile_all l h,
    dropWhile_all l.reverse (fun c hc => h c (List.mem_reverse.mp hc)),
    List.reverse_reverse]

/-- Right-strip only (what `pyStrip` does once the left side is clean). -/
def dropTr (l : List Char) : List Char :=
  (l.reverse.dropWhile pySpace).reverse

theorem dropWhile_head_ns (l : List Char) (c : Char) (hh : l.head? = some c)
    (hc : pySpace c = false) : l.dropWhile pySpace = l := by
  cases l with
  | nil => cases hh
  | cons d r =>
    rw [List.head?_cons, Option.some.injEq] at hh
    rw [List.dropWhile_cons, if_neg (by rw [hh, hc]; simp)]

theorem dropWhile_append_ne (u v : List Char)
    (hu : u.dropWhile pySpace ≠ []) :
    (u ++ v).dropWhile pySpace = u.dropWhile pySpace ++ v := by
  induction u with
  | nil => exact absurd rfl hu
  | cons c r ih =>
    by_cases hp : pySpace c = true
    · rw [List.dropWhile_cons, if_pos hp] at hu
      rw [List.cons_append, List.dropWhile_cons, if_pos hp, ih hu,
        List.dropWhile_cons, if_pos hp]
    · rw [List.cons_append, List.dropWhile_cons, if_neg hp,
        List.dropWhile_cons, if_neg hp]
      rfl

theorem dropTr_append (y X : List Char) (hX : dropTr X ≠ []) :
    dropTr (y ++ X) = y ++ dropTr X := by
  unfold dropTr at hX ⊢
  have hne : X.reverse.dropWhile pySpace ≠ [] := by
    intro he
    rw [he] at hX
    exact hX rfl
  rw [List.reverse_append, dropWhile_append_ne X.reverse y.reverse hne,
    List.reverse_append, List.reverse_reverse]

theorem dropTr_ne_nil (X : List Char) (c : Char) (hh : X.head? = some c)
    (hc : pySpace c = false) : dropTr X ≠ [] := by
  cases X with
  | nil => cases hh
  | cons d r =>
    rw [List.head?_cons, Option.some.injEq] at hh
    intro he
    unfold dropTr at he
    rw [List.reverse_eq_nil_iff, List.dropWhile_eq_nil_iff] at he
    have hd := he d (List.mem_reverse.mpr (List.mem_cons_self d r))
    simp [hh, hc] at hd

theorem dropTr_word_space (w : List Char) (h : ∀ c ∈ w, pySpace c = false) :
    dropTr (w ++ [' ']) = w := by
  unfold dropTr
  have h1 : (w ++ [' ']).reverse = ' ' :: w.reverse := by
    rw [List.reverse_append]
    rfl
  rw [h1]
  rw [show (' ' :: w.reverse).dropWhile pySpace = w.reverse.dropWhile pySpace from by
    rw [List.dropWhile_cons, if_pos (by decide)]]
  rw [dropWhile_all w.reverse (fun c hc => h c (List.mem_reverse.mp hc)),
    List.reverse_reverse]

theorem joinSp_cons_cons (w w2 : List Char) (ws : List (List Char)) :
    joinSp (w :: w2 :: ws) = w ++ ' ' :: joinSp (w2 :: ws) := rfl

theorem joinSp_head (w : List Char) (ws : List (List Char)) (hw : w ≠ []) :
    (joinSp (w :: ws)).head? = w.head? := by
  cases ws with
  | nil => rfl
  | cons w2 ws' =>
    rw [joinSp_cons_cons]
    cases w with
    | nil => exact absurd rfl hw
    | cons c r => rfl

theorem joinSp_eq_nil (ws : List (List Char)) (hg : GoodW ws)
    (h : joinSp ws = []) : ws = [] := by
  cases ws with
  | nil => rfl
  | cons w ws' =>
    have hw := (hg w (List.mem_cons_self w ws')).1
    cases ws' with
    | nil => exact absurd h hw
    | cons w2 ws'' =>
      rw [joinSp_cons_cons] at h
      cases w with
      | nil => exact absurd rfl hw
      | cons c r => simp at h

theorem head_ns_of_good (w : List Char) (hne : w ≠ [])
    (hns : ∀ c ∈ w, pySpace c = false) (c : Char) (hh : w.head? = some c) :
    pySpace c = false := by
  cases w with
  | nil => exact absurd rfl hne
  | cons d r =>
    rw [List.head?_cons, Option.some.injEq] at hh
    rw [← hh]
    exact hns d (List.mem_cons_self d r)

/-- The word list after the `--` comment cut: words strictly before the
word containing the first `--` survive, that word is truncated (and
dropped if nothing is left), the rest disappears. -/
def cutW : List (List Char) → List (List Char)
  | [] => []
  | w :: ws =>
    if hasSub ['-', '-'] w = true then
      (if cutDD w = [] then [] else [cutDD w])
    else w :: cutW ws

theorem cutW_good (ws : List (List Char)) (hg : GoodW ws) : GoodW (cutW ws) := by
  induction ws with
  | nil => intro w hw; cases hw
  | cons w ws' ih =>
    unfold cutW
    by_cases hdd : hasSub ['-', '-'] w = true
    · rw [if_pos hdd]
      by_cases hce : cutDD w = []
      · rw [if_pos hce]; intro x hx; cases hx
      · rw [if_neg hce]
        intro x hx
        rcases List.mem_singleton.mp hx with rfl
        exact ⟨hce, fun c hc => (hg w (List.mem_cons_self _ _)).2 c (mem_cutDD w c hc)⟩
    · rw [if_neg hdd]
      intro x hx
      rcases List.mem_cons.mp hx with rfl | hx
      · exact hg x (List.mem_cons_self _ _)
      · exact ih (fun y hy => hg y (List.mem_cons_of_mem _ hy)) x hx

theorem cutW_no_dd (ws : List (List Char)) :
    ∀ w1 ∈ cutW ws, hasSub ['-', '-'] w1 = false := by
  induction ws with
  | nil => intro w hw; cases hw
  | cons w ws' ih =>
    unfold cutW
    by_cases hdd : hasSub ['-', '-'] w = true
    · rw [if_pos hdd]
      by_cases hce : cutDD w = []
      · rw [if_pos hce]; intro x hx; cases hx
      · rw [if_neg hce]
        intro x hx
        rcases List.mem_singleton.mp hx with rfl
        exact cutDD_no_dd_result w
    · rw [if_neg hdd]
      intro x hx
      rcases List.mem_cons.mp hx with rfl | hx
      · simpa using hdd
      · exact ih x hx

theorem cutW_no_pat (pat : List Char) (ws : List (List Char))
    (h : ∀ w ∈ ws, hasSub pat w = false) :
    ∀ w1 ∈ cutW ws, hasSub pat w1 = false := by
  induction ws with
  | nil => intro w hw; cases hw
  | cons w ws' ih =>
    unfold cutW
    by_cases hdd : hasSub ['-', '-'] w = true
    · rw [if_pos hdd]
      by_cases hce : cutDD w = []
      · rw [if_pos hce]; intro x hx; cases hx
      · rw [if_neg hce]
        intro x hx
        rcases List.mem_singleton.mp hx with rfl
        cases hx2 : hasSub pat (cutDD w) with
        | false => rfl
        | true =>
          rcases cutDD_prefix w with ⟨s, hs⟩
          have hfull := hasSub_append_left pat (cutDD w) s hx2
          rw [← hs, h w (List.mem_cons_self _ _)] at hfull
          cases hfull
    · rw [if_neg hdd]
      intro x hx
      rcases List.mem_cons.mp hx with rfl | hx
      · exact h x (List.mem_cons_self _ _)
      · exact ih (fun y hy => h y (List.mem_cons_of_mem _ hy)) x hx

theorem cutW_id (ws : List (List Char))
    (h : ∀ w ∈ ws, hasSub ['-', '-'] w = false) : cutW ws = ws := by
  induction ws with
  | nil => rfl
  | cons w ws' ih =>
    unfold cutW
    rw [if_neg (by rw [h w (List.mem_cons_self _ _)]; simp),
      ih (fun y hy => h y (List.mem_cons_of_mem _ hy))]

theorem words_no_pat (pat : List Char) (l : List Char)
    (h : hasSub pat l = false) :
    ∀ w ∈ words l, hasSub pat w = false := by
  intro w hw
  cases hx : hasSub pat w with
  | false => rfl
  | true =>
    rcases (words_chunks l).1 w hw with ⟨p, s, he⟩
    rw [he, hasSub_chunk pat p w s hx] at h
    cases h

theorem no_nl_joinSp (ws : List (List Char)) (hg : GoodW ws) :
    '\n' ∉ joinSp ws := by
  intro h
  rcases mem_joinSp '\n' ws h with ⟨w, hw, hc⟩ | hc
  · exact absurd ((hg w hw).2 '\n' hc) (by decide)
  · exact absurd hc (by decide)

/-- Effect of stripping after the comment cut on a join of good words:
exactly the word-level cut described by `cutW`. -/
theorem strip_cutDD_joinSp (ws : List (List Char)) :
    GoodW ws → pyStrip (cutDD (joinSp ws)) = joinSp (cutW ws) := by
  induction ws with
  | nil => intro _; rfl
  | cons w ws' ih =>
    intro hg
    have hgw := hg w (List.mem_cons_self w ws')
    have hg2 : GoodW ws' := fun y hy => hg y (List.mem_cons_of_mem _ hy)
    by_cases hdd : hasSub ['-', '-'] w = true
    · have hcut : cutDD (joinSp (w :: ws')) = cutDD w := by
        cases ws' with
        | nil => rfl
        | cons w2 ws'' =>
          rw [joinSp_cons_cons]
          exact cutDD_append_dd w (' ' :: joinSp (w2 :: ws'')) hdd
      have hstr : pyStrip (cutDD w) = cutDD w :=
        pyStrip_all (cutDD w) (fun c hc => hgw.2 c (mem_cutDD w c hc))
      rw [hcut, hstr]
      show cutDD w = joinSp (cutW (w :: ws'))
      unfold cutW
      rw [if_pos hdd]
      by_cases hce : cutDD w = []
      · rw [if_pos hce, hce]; rfl
      · rw [if_neg hce]; rfl
    · have hddf : hasSub ['-', '-'] w = false := by simpa using hdd
      have hcw : cutW (w :: ws') = w :: cutW ws' := by
        rw [show cutW (w :: ws') = if hasSub ['-', '-'] w = true then
            (if cutDD w = [] then [] else [cutDD w]) else w :: cutW ws' from rfl]
        rw [if_neg hdd]
      cases ws' with
      | nil =>
        show pyStrip (cutDD w) = joinSp (cutW [w])
        rw [cutDD_no_dd w hddf, hcw]
        show pyStrip w = joinSp [w]
        exact pyStrip_all w hgw.2
      | cons w2 ws'' =>
        rw [joinSp_cons_cons, cutDD_append_ok w (joinSp (w2 :: ws'')) hddf, hcw]
        have hwne : w ≠ [] := hgw.1
        obtain ⟨cw, hcw1⟩ : ∃ c, w.head? = some c := by
          cases w with
          | nil => exact absurd rfl hwne
          | cons d r => exact ⟨d, rfl⟩
        have hcwns : pySpace cw = false := head_ns_of_good w hwne hgw.2 cw hcw1
        have hlstrip : (w ++ ' ' :: cutDD (joinSp (w2 :: ws''))).dropWhile pySpace
            = w ++ ' ' :: cutDD (joinSp (w2 :: ws'')) := by
          refine dropWhile_head_ns _ cw ?_ hcwns
          cases w with
          | nil => exact absurd rfl hwne
          | cons d r => exact hcw1
        have hps : pyStrip (w ++ ' ' :: cutDD (joinSp (w2 :: ws''))) =
            dropTr (w ++ ' ' :: cutDD (joinSp (w2 :: ws''))) := by
          unfold pyStrip dropTr
          rw [hlstrip]
        rw [hps]
        by_cases hXe : cutDD (joinSp (w2 :: ws'')) = []
        · rw [hXe]
          have h2 := ih hg2
          rw [hXe] at h2
          have hjnil : joinSp (cutW (w2 :: ws'')) = [] := h2.symm
          have hws2 : cutW (w2 :: ws'') = [] :=
            joinSp_eq_nil _ (cutW_good _ hg2) hjnil
          rw [hws2]
          exact dropTr_word_space w hgw.2
        · obtain ⟨c2, hc2⟩ : ∃ c, (cutDD (joinSp (w2 :: ws''))).head? = some c := by
            cases hcd : cutDD (joinSp (w2 :: ws'')) with
            | nil => exact absurd hcd hXe
            | cons a b => exact ⟨a, rfl⟩
          have hc2w : (joinSp (w2 :: ws'')).head? = some c2 := by
            rcases cutDD_head (joinSp (w2 :: ws'')) with he | he
            · exact absurd he hXe
            · rw [← he]
              exact hc2
          have hc2ns : pySpace c2 = false := by
            have hw2g := hg2 w2 (List.mem_cons_self w2 ws'')
            refine head_ns_of_good w2 hw2g.1 hw2g.2 c2 ?_
            rw [← joinSp_head w2 ws'' hw2g.1]
            exact hc2w
          have hdt : dropTr (cutDD (joinSp (w2 :: ws''))) ≠ [] :=
            dropTr_ne_nil _ c2 hc2 hc2ns
          have hsplit : w ++ ' ' :: cutDD (joinSp (w2 :: ws'')) =
              (w ++ [' ']) ++ cutDD (joinSp (w2 :: ws'')) := by
            rw [List.append_assoc]
            rfl
          rw [hsplit, dropTr_append (w ++ [' ']) _ hdt]
          have hpsX : pyStrip (cutDD (joinSp (w2 :: ws''))) =
              dropTr (cutDD (joinSp (w2 :: ws''))) := by
            unfold pyStrip dropTr
            rw [dropWhile_head_ns _ c2 hc2 hc2ns]
          have h2 := ih hg2
          rw [hpsX] at h2
          rw [h2]
          have hcne : cutW (w2 :: ws'') ≠ [] := by
            intro he
            rw [he] at h2
            exact hdt h2
          cases hcul : cutW (w2 :: ws'') with
          | nil => exact absurd hcul hcne
          | cons u us =>
            rw [joinSp_cons_cons w u us, List.append_assoc]
            rfl

/-- Idempotence of `_normalize_query` on the character-list level,
under the proviso that the input contains no `/*`. -/
theorem normalizeL_idem_no_block (q : List Char)
    (h : hasSub ['/', '*'] q = false) :
    normalizeL (normalizeL q) = normalizeL q := by
  have hg : GoodW (words q) := goodW_words q
  have hnl : '\n' ∉ joinSp (words q) := no_nl_joinSp (words q) hg
  have hSBj : hasSub ['/', '*'] (joinSp (words q)) = false :=
    pair_not_in_collapse '/' '*' (by decide) (by decide) q h
  have hSBc : hasSub ['/', '*'] (cutDD (joinSp (words q))) = false := by
    cases hx : hasSub ['/', '*'] (cutDD (joinSp (words q))) with
    | false => rfl
    | true =>
      rcases cutDD_prefix (joinSp (words q)) with ⟨s, hs⟩
      have hfull := hasSub_append_left ['/', '*'] _ s hx
      rw [← hs, hSBj] at hfull
      cases hfull
  have e1 : normalizeL q = joinSp (cutW (words q)) := by
    unfold normalizeL collapseWs
    rw [cutLines_no_nl _ hnl, rmBlock_id _ hSBc]
    exact strip_cutDD_joinSp (words q) hg
  have hg2 : GoodW (cutW (words q)) := cutW_good (words q) hg
  have hnl2 : '\n' ∉ joinSp (cutW (words q)) := no_nl_joinSp _ hg2
  have hDD2 : hasSub ['-', '-'] (joinSp (cutW (words q))) = false := by
    cases hx : hasSub ['-', '-'] (joinSp (cutW (words q))) with
    | false => rfl
    | true =>
      rcases pair_in_joinSp '-' '-' (by decide) (by decide) _ hx with ⟨w1, hw1, hh⟩
      rw [cutW_no_dd (words q) w1 hw1] at hh
      cases hh
  have hSB2 : hasSub ['/', '*'] (joinSp (cutW (words q))) = false := by
    cases hx : hasSub ['/', '*'] (joinSp (cutW (words q))) with
    | false => rfl
    | true =>
      rcases pair_in_joinSp '/' '*' (by decide) (by decide) _ hx with ⟨w1, hw1, hh⟩
      rw [cutW_no_pat ['/', '*'] (words q) (words_no_pat _ q h) w1 hw1] at hh
      cases hh
  have hwords2 : words (joinSp (cutW (words q))) = cutW (words q) :=
    words_joinSp _ hg2
  have hcut2 : cutDD (joinSp (cutW (words q))) = joinSp (cutW (words q)) :=
    cutDD_no_dd _ hDD2
  have hstrip2 : pyStrip (joinSp (cutW (words q))) = joinSp (cutW (words q)) := by
    have hD := strip_cutDD_joinSp (cutW (words q)) hg2
    rw [hcut2, cutW_id (cutW (words q)) (cutW_no_dd (words q))] at hD
    exact hD
  rw [e1]
  unfold normalizeL collapseWs
  rw [hwords2, cutLines_no_nl _ hnl2, hcut2, rmBlock_id _ hSB2, hstrip2]

/-- Normalization is not idempotent in general: the whitespace collapse
runs before block-comment removal, so deleting a block comment can
leave a double space that a second pass would collapse. -/
theorem normalize_not_idempotent_cex :
    normalizeQuery (normalizeQuery "SELECT /*x*/ 1") ≠
      normalizeQuery "SELECT /*x*/ 1" := by decide

/-- C4 (corrected): `_normalize_query` is idempotent on every input
that contains no `/*`; on inputs with a block comment the claim fails
(see the counterexample), because whitespace collapsing precedes
block-comment removal. -/
theorem normalize_idempotent_no_block_comment (q : String)
    (h : hasSub ['/', '*'] q.data = false) :
    normalizeQuery (normalizeQuery q) = normalizeQuery q :=
  congrArg String.mk (normalizeL_idem_no_block q.data h)

theorem normalize_idempotent_no_block_comment_witness :
    hasSub ['/', '*'] ("SELECT  1 -- c\n ORDER BY x " : String).data = false ∧
    normalizeQuery (normalizeQuery "SELECT  1 -- c\n ORDER BY x ") =
      normalizeQuery "SELECT  1 -- c\n ORDER BY x " :=
  ⟨by decide, normalize_idempotent_no_block_comment "SELECT  1 -- c\n ORDER BY x " (by decide)⟩

end Slowql

